import Mathlib

/-!
# The graphics import dialog of Pcbnew

A shallow embedding of `pcbnew/import_gfx/dialog_import_gfx.cpp`.

Conventions of the embedding:

* a C++ `double` is a rational number (`ℚ`): arithmetic is exact, so `25.4` is `127/5`;
* a numeric text control holds the number that `DoubleValueFromString` reads from it; a
  field set with `wxString::Format( "%f", v )` holds `v` rounded to six decimals, the number
  of decimals that this format writes;
* `int`, `long` and `LAYER_NUM` are `Int`;
* an object behind a pointer that the dialog mutates (the configuration store, the layer
  selector) is a field of the dialog state;
* calls to collaborators whose code is elsewhere (the graphics importer, the plugin manager,
  message boxes, the board, the frame) are recorded, in program order, in a trace; what such a
  call returns is given by the `COLLABORATORS` record.
-/

namespace ImportGfx

/-! ## Data model -/

/-- A point with `double` coordinates (`VECTOR2D`), here always millimetres or inches. -/
structure VECTOR2D where
  x : ℚ
  y : ℚ
deriving DecidableEq

/-- The operator `VECTOR2D / double`. -/
def VECTOR2D.div (v : VECTOR2D) (k : ℚ) : VECTOR2D := ⟨v.x / k, v.y / k⟩

/-- The operator `VECTOR2D * double`. -/
def VECTOR2D.mul (v : VECTOR2D) (k : ℚ) : VECTOR2D := ⟨v.x * k, v.y * k⟩

/-- An import plugin as far as the dialog sees it: `GetName()` and `GetWildcards()`. -/
structure GRAPHICS_IMPORT_PLUGIN where
  name : String
  wildcards : String
deriving DecidableEq

/-- A value kept under a key of the configuration store. -/
inductive wxConfigValue where
  | long (v : Int)
  | bool (v : Bool)
  | str (v : String)
  | dbl (v : ℚ)
deriving DecidableEq

/-- The string-keyed configuration store of the application (`wxConfigBase`): the entry
nearest the head is the current one of its key. -/
abbrev wxConfigBase := List (String × wxConfigValue)

/-- `Read( key, (long) defVal )` and `Read( key, &intVar, defVal )`. -/
def wxConfigBase.ReadLong (c : wxConfigBase) (key : String) (defVal : Int) : Int :=
  match c.lookup key with
  | some (.long v) => v
  | _ => defVal

/-- `Read( key, (bool) defVal )`. -/
def wxConfigBase.ReadBool (c : wxConfigBase) (key : String) (defVal : Bool) : Bool :=
  match c.lookup key with
  | some (.bool v) => v
  | _ => defVal

/-- `Read( key, (wxString) defVal )`. -/
def wxConfigBase.ReadString (c : wxConfigBase) (key : String) (defVal : String) : String :=
  match c.lookup key with
  | some (.str v) => v
  | _ => defVal

/-- `Read( key, &doubleVar, defVal )`. -/
def wxConfigBase.ReadDouble (c : wxConfigBase) (key : String) (defVal : ℚ) : ℚ :=
  match c.lookup key with
  | some (.dbl v) => v
  | _ => defVal

/-- `Write( key, value )`. -/
def wxConfigBase.Write (c : wxConfigBase) (key : String) (v : wxConfigValue) : wxConfigBase :=
  (key, v) :: c

/-! Keys to store setup in config. -/

def IMPORT_GFX_LAYER_OPTION_KEY : String := "GfxImportBrdLayer"
def IMPORT_GFX_PLACEMENT_INTERACTIVE_KEY : String := "GfxImportPlacementInteractive"
def IMPORT_GFX_LAST_FILE_KEY : String := "GfxImportLastFile"
def IMPORT_GFX_POSITION_UNITS_KEY : String := "GfxImportPositionUnits"
def IMPORT_GFX_POSITION_X_KEY : String := "GfxImportPositionX"
def IMPORT_GFX_POSITION_Y_KEY : String := "GfxImportPositionY"
def IMPORT_GFX_LINEWIDTH_UNITS_KEY : String := "GfxImportLineWidthUnits"
def IMPORT_GFX_LINEWIDTH_KEY : String := "GfxImportLineWidth"

/-- The eight keys of the import dialog. -/
def importKeys : List String :=
  [IMPORT_GFX_LAYER_OPTION_KEY, IMPORT_GFX_PLACEMENT_INTERACTIVE_KEY, IMPORT_GFX_LAST_FILE_KEY,
   IMPORT_GFX_POSITION_UNITS_KEY, IMPORT_GFX_POSITION_X_KEY, IMPORT_GFX_POSITION_Y_KEY,
   IMPORT_GFX_LINEWIDTH_UNITS_KEY, IMPORT_GFX_LINEWIDTH_KEY]

/-- A pointer to a board item: the items themselves live on the heap. -/
abbrev BOARD_ITEM := Nat

/-- A point in internal units (`wxPoint`, `wxSize`). -/
structure wxPoint where
  x : Int
  y : Int
deriving DecidableEq

/-- A rectangle (`EDA_RECT`): `GetOrigin()` is `m_Pos`, `GetSize()` is `m_Size`. -/
structure EDA_RECT where
  m_Pos : wxPoint
  m_Size : wxPoint
deriving DecidableEq

/-- The undo commands this file uses (`UNDO_REDO_T`). -/
inductive UNDO_REDO_T where
  | UR_NEW
  | UR_CHANGED
deriving DecidableEq

/-- The status flag this file sets on items. -/
inductive STATUS_FLAGS where
  | IS_MOVED
deriving DecidableEq

/-- An entry of a `PICKED_ITEMS_LIST`: the picked item (`none` for `nullptr`) and its undo
status. -/
structure ITEM_PICKER where
  item : Option BOARD_ITEM
  status : UNDO_REDO_T
deriving DecidableEq

/-- A call from the code of this file to a collaborator, with its arguments. -/
inductive Call where
  | wxMessageBox (message : String) (caption : Option String)
  | SetLayer (layer : Int)
  | GetPluginByExt (ext : String)
  | SetImportOffsetMM (offset : VECTOR2D)
  | SetLineWidthMM (width : ℚ)
  | SetPlugin (plugin : GRAPHICS_IMPORT_PLUGIN)
  | Load (fileName : String)
  | Import (scale : ℚ)
  | GetMessages
  | Skip
  | HandleBlockBegin
  | SetFlags (item : BOARD_ITEM) (flag : STATUS_FLAGS)
  | BOARD_Add (item : BOARD_ITEM)
  | MODULE_Add (item : BOARD_ITEM)
  | blockitemsList_PushItem (picker : ITEM_PICKER)
  | SaveCopyInUndoList (picklist : List ITEM_PICKER) (command : UNDO_REDO_T)
  | SaveCopyInUndoList_item (command : UNDO_REDO_T)
  | OnModify
  | SetOrigin (pos : wxPoint)
  | SetSize (size : wxPoint)
  | SetLastCursorPosition (pos : wxPoint)
  | HandleBlockEnd
deriving DecidableEq

/-- Whether a call is a call on the graphics importer `m_importer`. -/
def Call.onImporter : Call → Bool
  | .SetLayer _ => true
  | .SetImportOffsetMM _ => true
  | .SetLineWidthMM _ => true
  | .SetPlugin _ => true
  | .Load _ => true
  | .Import _ => true
  | .GetMessages => true
  | _ => false

/-- What the code of this file needs from its collaborators, whose own code is elsewhere.
`Box` is the state of the layer selector widget. -/
structure COLLABORATORS (Box : Type) where
  /-- the layer id `Dwgs_User` of the enumeration `PCB_LAYER_ID` -/
  Dwgs_User : Int
  /-- `m_SelLayerBox->SetLayerSelection( layer )`: the widget afterwards and the returned
  index, negative when the layer is not in the widget -/
  SetLayerSelection : Box → Int → Box × Int
  /-- `m_SelLayerBox->GetLayerSelection()` -/
  GetLayerSelection : Box → Int
  /-- `wxFileName( name ).GetExt()` -/
  GetExt : String → String
  /-- `m_gfxImportMgr->GetPluginByExt( ext )`, `none` for a null plugin -/
  GetPluginByExt : String → Option GRAPHICS_IMPORT_PLUGIN
  /-- `m_importer->Load( fileName )`, after the calls made so far -/
  Load : List Call → String → Bool
  /-- `m_importer->GetMessages()`, after the calls made so far -/
  GetMessages : List Call → String
  /-- `item->GetBoundingBox()` -/
  GetBoundingBox : BOARD_ITEM → EDA_RECT
  /-- `a.Merge( b )`, the rectangle `a` becomes -/
  Merge : EDA_RECT → EDA_RECT → EDA_RECT
  /-- `rect.Centre()` -/
  Centre : EDA_RECT → wxPoint
  /-- `aCaller->GetNearestGridPosition( pos )` -/
  GetNearestGridPosition : wxPoint → wxPoint

/-- The members of `DIALOG_IMPORT_GFX` that are static: the choices of the session. -/
structure SESSION where
  m_filename : String
  m_placementInteractive : Bool
  m_layer : Int
  m_scaleImport : ℚ

/-- The static initialisers of the file: the session before any dialog was opened. -/
def SESSION.fresh (Dwgs_User : Int) : SESSION :=
  { m_filename := "", m_placementInteractive := true, m_layer := Dwgs_User, m_scaleImport := 1.0 }

/-- The state of a `DIALOG_IMPORT_GFX`: static members, members, and the controls of the
base class that this file reads or sets. The two unit indices are integers (they are read
with `Read( key, &intVar, 0 )` and switched on); a choice control is its selection, a numeric
text control the number read from it, the layer selector a `Box`. -/
structure DIALOG_IMPORT_GFX (Box : Type) where
  m_filename : String
  m_placementInteractive : Bool
  m_layer : Int
  m_scaleImport : ℚ
  m_config : Option wxConfigBase
  m_originImportUnits : Int
  m_importOrigin : VECTOR2D
  m_default_lineWidth : ℚ
  m_lineWidthImportUnits : Int
  m_choiceUnitLineWidth : Int
  m_textCtrlLineWidth : ℚ
  m_DxfPcbPositionUnits : Int
  m_DxfPcbXCoord : ℚ
  m_DxfPcbYCoord : ℚ
  m_textCtrlFileName : String
  m_rbInteractivePlacement : Bool
  m_rbAbsolutePlacement : Bool
  m_textCtrlImportScale : ℚ
  m_SelLayerBox : Box

variable {Box : Type}

/-- The session a dialog leaves behind (its static members). -/
def DIALOG_IMPORT_GFX.session (d : DIALOG_IMPORT_GFX Box) : SESSION :=
  { m_filename := d.m_filename, m_placementInteractive := d.m_placementInteractive,
    m_layer := d.m_layer, m_scaleImport := d.m_scaleImport }

/-- The conversion of a `double` to `int` of an assignment: truncation towards zero (the
fractional part is dropped; the range of `int` is not modelled). -/
def doubleToInt (v : ℚ) : Int := Int.tdiv v.num v.den

/-- The nearest integer, a tie going to the even one: the rounding of the last digit
written by a `printf` conversion. -/
def roundHalfEven (q : ℚ) : Int :=
  if q - ⌊q⌋ < 1 / 2 then ⌊q⌋
  else if 1 / 2 < q - ⌊q⌋ then ⌊q⌋ + 1
  else if ⌊q⌋ % 2 = 0 then ⌊q⌋
  else ⌊q⌋ + 1

/-- The number in the text `wxString::Format( "%f", v )`, as `DoubleValueFromString` reads
it: `v` with six decimals. -/
def formatF (v : ℚ) : ℚ := (roundHalfEven (v * 1000000) : ℚ) / 1000000

/-! ## Unit conversions -/

/-- `DIALOG_IMPORT_GFX::getPCBdefaultLineWidthMM`. -/
def getPCBdefaultLineWidthMM (d : DIALOG_IMPORT_GFX Box) : ℚ :=
  let value := d.m_textCtrlLineWidth
  if d.m_lineWidthImportUnits = 1 then value * (25.4 / 1000)
  else if d.m_lineWidthImportUnits = 2 then value * 25.4
  else value

/-- `DIALOG_IMPORT_GFX::showPCBdefaultLineWidth`. -/
def showPCBdefaultLineWidth (d : DIALOG_IMPORT_GFX Box) : DIALOG_IMPORT_GFX Box :=
  let value :=
    if d.m_lineWidthImportUnits = 1 then d.m_default_lineWidth / 25.4 * 1000
    else if d.m_lineWidthImportUnits = 2 then d.m_default_lineWidth / 25.4
    else d.m_default_lineWidth
  { d with m_textCtrlLineWidth := formatF value }

/-- `DIALOG_IMPORT_GFX::showPcbImportOffsets`. -/
def showPcbImportOffsets (d : DIALOG_IMPORT_GFX Box) : DIALOG_IMPORT_GFX Box :=
  let offset := if d.m_originImportUnits ≠ 0 then d.m_importOrigin.div 25.4 else d.m_importOrigin
  { d with m_DxfPcbXCoord := formatF offset.x, m_DxfPcbYCoord := formatF offset.y }

/-- `DIALOG_IMPORT_GFX::updatePcbImportOffsets_mm`. -/
def updatePcbImportOffsets_mm (d : DIALOG_IMPORT_GFX Box) : DIALOG_IMPORT_GFX Box :=
  let origin : VECTOR2D := ⟨d.m_DxfPcbXCoord, d.m_DxfPcbYCoord⟩
  { d with m_importOrigin := if d.m_originImportUnits ≠ 0 then origin.mul 25.4 else origin }

/-- `DIALOG_IMPORT_GFX::onUnitWidthSelection`. -/
def onUnitWidthSelection (d : DIALOG_IMPORT_GFX Box) : DIALOG_IMPORT_GFX Box :=
  let d := { d with m_default_lineWidth := getPCBdefaultLineWidthMM d }
  let d := { d with m_lineWidthImportUnits := d.m_choiceUnitLineWidth }
  showPCBdefaultLineWidth d

/-- `DIALOG_IMPORT_GFX::onUnitPositionSelection`. -/
def onUnitPositionSelection (d : DIALOG_IMPORT_GFX Box) : DIALOG_IMPORT_GFX Box :=
  let d := updatePcbImportOffsets_mm d
  let d := { d with m_originImportUnits := d.m_DxfPcbPositionUnits }
  showPcbImportOffsets d

/-! ## Construction and destruction -/

/-- The constructor `DIALOG_IMPORT_GFX::DIALOG_IMPORT_GFX`: `s` is the session so far,
`config` what `Kiface().KifaceSettings()` points to, `box` the layer selector after
`Resync()`. -/
def DIALOG_IMPORT_GFX.create (h : COLLABORATORS Box) (s : SESSION) (config : Option wxConfigBase)
    (box : Box) : DIALOG_IMPORT_GFX Box :=
  let d : DIALOG_IMPORT_GFX Box :=
    { m_filename := s.m_filename, m_placementInteractive := s.m_placementInteractive,
      m_layer := s.m_layer, m_scaleImport := s.m_scaleImport,
      m_config := config,
      m_originImportUnits := 0,
      m_importOrigin := ⟨0.0, 0.0⟩,
      m_default_lineWidth := 0.2,
      m_lineWidthImportUnits := 0,
      m_choiceUnitLineWidth := 0, m_textCtrlLineWidth := 0, m_DxfPcbPositionUnits := 0,
      m_DxfPcbXCoord := 0, m_DxfPcbYCoord := 0, m_textCtrlFileName := "",
      m_rbInteractivePlacement := false, m_rbAbsolutePlacement := false,
      m_textCtrlImportScale := 0, m_SelLayerBox := box }
  let d :=
    match d.m_config with
    | some cfg =>
      { d with
        m_layer := cfg.ReadLong IMPORT_GFX_LAYER_OPTION_KEY h.Dwgs_User
        m_placementInteractive := cfg.ReadBool IMPORT_GFX_PLACEMENT_INTERACTIVE_KEY true
        m_filename := cfg.ReadString IMPORT_GFX_LAST_FILE_KEY ""
        m_default_lineWidth := cfg.ReadDouble IMPORT_GFX_LINEWIDTH_KEY 0.2
        m_originImportUnits := cfg.ReadLong IMPORT_GFX_POSITION_UNITS_KEY 0
        m_importOrigin := ⟨cfg.ReadDouble IMPORT_GFX_POSITION_X_KEY 0.0,
                           cfg.ReadDouble IMPORT_GFX_POSITION_Y_KEY 0.0⟩ }
    | none => d
  let d := { d with m_choiceUnitLineWidth := d.m_lineWidthImportUnits }
  let d := showPCBdefaultLineWidth d
  let d := { d with m_DxfPcbPositionUnits := d.m_originImportUnits }
  let d := showPcbImportOffsets d
  let d := { d with m_textCtrlFileName := d.m_filename }
  let d := { d with m_rbInteractivePlacement := d.m_placementInteractive }
  let d := { d with m_rbAbsolutePlacement := !d.m_placementInteractive }
  let d := { d with m_textCtrlImportScale := formatF d.m_scaleImport }
  let r := h.SetLayerSelection d.m_SelLayerBox d.m_layer
  let d := { d with m_SelLayerBox := r.1 }
  if r.2 < 0 then
    let d := { d with m_layer := h.Dwgs_User }
    { d with m_SelLayerBox := (h.SetLayerSelection d.m_SelLayerBox d.m_layer).1 }
  else d

/-- The destructor `DIALOG_IMPORT_GFX::~DIALOG_IMPORT_GFX`: the state it leaves, whose
`m_config` is the configuration store after the writes and whose static members are the
session of the next dialog. -/
def DIALOG_IMPORT_GFX.destroy (h : COLLABORATORS Box) (d : DIALOG_IMPORT_GFX Box) :
    DIALOG_IMPORT_GFX Box :=
  let d := updatePcbImportOffsets_mm d
  let d := { d with m_layer := h.GetLayerSelection d.m_SelLayerBox }
  match d.m_config with
  | some cfg =>
    let cfg := cfg.Write IMPORT_GFX_LAYER_OPTION_KEY (.long d.m_layer)
    let cfg := cfg.Write IMPORT_GFX_PLACEMENT_INTERACTIVE_KEY (.bool d.m_placementInteractive)
    let cfg := cfg.Write IMPORT_GFX_LAST_FILE_KEY (.str d.m_filename)
    let cfg := cfg.Write IMPORT_GFX_POSITION_UNITS_KEY (.long d.m_originImportUnits)
    let cfg := cfg.Write IMPORT_GFX_POSITION_X_KEY (.dbl d.m_importOrigin.x)
    let cfg := cfg.Write IMPORT_GFX_POSITION_Y_KEY (.dbl d.m_importOrigin.y)
    let d := { d with m_lineWidthImportUnits := doubleToInt (getPCBdefaultLineWidthMM d) }
    let cfg := cfg.Write IMPORT_GFX_LINEWIDTH_KEY (.dbl d.m_default_lineWidth)
    let cfg := cfg.Write IMPORT_GFX_LINEWIDTH_UNITS_KEY (.long d.m_lineWidthImportUnits)
    { d with m_config := some cfg }
  | none => d

/-! ## The OK button -/

/-- `DIALOG_IMPORT_GFX::onOKClick`: the state afterwards and the calls made, in order. The
dialog is accepted when `event.Skip()` is called. -/
def onOKClick (h : COLLABORATORS Box) (d : DIALOG_IMPORT_GFX Box) :
    DIALOG_IMPORT_GFX Box × List Call :=
  let d := { d with m_filename := d.m_textCtrlFileName }
  if d.m_filename = "" then
    (d, [Call.wxMessageBox "Error: No DXF filename!" none])
  else
    let d := updatePcbImportOffsets_mm d
    let d := { d with m_layer := h.GetLayerSelection d.m_SelLayerBox }
    if d.m_layer < 0 then
      (d, [Call.wxMessageBox "Please, select a valid layer" none])
    else
      let d := { d with m_default_lineWidth := getPCBdefaultLineWidthMM d }
      let t := [Call.SetLayer d.m_layer]
      let ext := h.GetExt d.m_filename
      let t := t ++ [Call.GetPluginByExt ext]
      match h.GetPluginByExt ext with
      | some plugin =>
        let t := t ++ [Call.SetImportOffsetMM d.m_importOrigin]
        let d := { d with m_scaleImport := d.m_textCtrlImportScale }
        let t := t ++ [Call.SetLineWidthMM d.m_default_lineWidth]
        let t := t ++ [Call.SetPlugin plugin]
        let loaded := h.Load t d.m_filename
        let t := t ++ [Call.Load d.m_filename]
        let t := if loaded then t ++ [Call.Import d.m_scaleImport] else t
        let warnings := h.GetMessages t
        let t := t ++ [Call.GetMessages]
        let t := if warnings ≠ "" then t ++ [Call.wxMessageBox warnings (some "Not Handled Items")]
                 else t
        (d, t ++ [Call.Skip])
      | none =>
        (d, t ++ [Call.wxMessageBox "There is no plugin to handle this file type" none])

/-! ## Handing the imported items to the board or the footprint -/

/-- The value of `wxID_OK`. -/
def wxID_OK : Int := 5100

/-- What the caller sees of the dialog once `ShowModal()` has returned. -/
structure MODAL_OUTCOME where
  ShowModal : Int
  GetImportedItems : List BOARD_ITEM
  IsPlacementInteractive : Bool

/-- The local variables of the two `InvokeDialogImportGfx...` functions and the calls made so
far. -/
structure LOCALS where
  calls : List Call
  picklist : List ITEM_PICKER
  item_picker : ITEM_PICKER
  bbox : EDA_RECT
  bboxInit : Bool

/-- The result of an `InvokeDialogImportGfx...` function: the returned value, the calls made
and the local undo picklist at the return. -/
structure INVOKE_RESULT where
  ret : Bool
  calls : List Call
  picklist : List ITEM_PICKER

/-- The locals after their declarations: an empty picklist, the picker `( nullptr, UR_NEW )`,
a default rectangle and `bboxInit = true`. -/
def LOCALS.init (calls : List Call) : LOCALS :=
  { calls := calls, picklist := [], item_picker := ⟨none, .UR_NEW⟩,
    bbox := ⟨⟨0, 0⟩, ⟨0, 0⟩⟩, bboxInit := true }

/-- The part of both loop bodies that runs under interactive placement once the picker holds
the item: push on the block list and grow the bounding box. -/
def blockPush (h : COLLABORATORS Box) (st : LOCALS) (item : BOARD_ITEM) : LOCALS :=
  let st := { st with calls := st.calls ++ [Call.blockitemsList_PushItem st.item_picker] }
  let st :=
    if st.bboxInit then { st with bbox := h.GetBoundingBox item }
    else { st with bbox := h.Merge st.bbox (h.GetBoundingBox item) }
  { st with bboxInit := false }

/-- The body of the loop of `InvokeDialogImportGfxBoard`. -/
def boardLoopBody (h : COLLABORATORS Box) (interactive : Bool) (st : LOCALS)
    (item : BOARD_ITEM) : LOCALS :=
  let st :=
    if interactive then { st with calls := st.calls ++ [Call.SetFlags item .IS_MOVED] } else st
  let st := { st with calls := st.calls ++ [Call.BOARD_Add item] }
  let st := { st with item_picker := { st.item_picker with item := some item } }
  let st := { st with picklist := st.picklist ++ [st.item_picker] }
  if interactive then blockPush h st item else st

/-- The block move is finished: the four calls after `OnModify()` under interactive
placement. -/
def finishBlockMove (h : COLLABORATORS Box) (st : LOCALS) : List Call :=
  let cpos := h.GetNearestGridPosition (h.Centre st.bbox)
  st.calls ++ [Call.SetOrigin st.bbox.m_Pos, Call.SetSize st.bbox.m_Size,
               Call.SetLastCursorPosition cpos, Call.HandleBlockEnd]

/-- `InvokeDialogImportGfxBoard`, `dlg` being what the dialog gave. -/
def InvokeDialogImportGfxBoard (h : COLLABORATORS Box) (dlg : MODAL_OUTCOME) : INVOKE_RESULT :=
  if dlg.ShowModal ≠ wxID_OK then
    { ret := false, calls := [], picklist := [] }
  else
    let list := dlg.GetImportedItems
    if list = [] then
      { ret := false, calls := [Call.wxMessageBox "No graphic items found in file to import" none],
        picklist := [] }
    else
      let st := LOCALS.init []
      let st :=
        if dlg.IsPlacementInteractive then { st with calls := st.calls ++ [Call.HandleBlockBegin] }
        else st
      let st := list.foldl (boardLoopBody h dlg.IsPlacementInteractive) st
      let st := { st with calls := st.calls ++ [Call.SaveCopyInUndoList st.picklist .UR_NEW] }
      let st := { st with calls := st.calls ++ [Call.OnModify] }
      let calls := if dlg.IsPlacementInteractive then finishBlockMove h st else st.calls
      { ret := true, calls := calls, picklist := st.picklist }

/-- The body of the loop of `InvokeDialogImportGfxModule`. -/
def moduleLoopBody (h : COLLABORATORS Box) (interactive : Bool) (st : LOCALS)
    (item : BOARD_ITEM) : LOCALS :=
  let st := { st with calls := st.calls ++ [Call.MODULE_Add item] }
  if interactive then
    let st := { st with calls := st.calls ++ [Call.SetFlags item .IS_MOVED] }
    let st := { st with item_picker := { st.item_picker with item := some item } }
    blockPush h st item
  else st

/-- `InvokeDialogImportGfxModule`, `aModule` being `none` for a null pointer and `dlg` what
the dialog gave. -/
def InvokeDialogImportGfxModule (h : COLLABORATORS Box) (aModule : Option Nat)
    (dlg : MODAL_OUTCOME) : INVOKE_RESULT :=
  match aModule with
  | none => { ret := false, calls := [], picklist := [] }
  | some _ =>
    if dlg.ShowModal ≠ wxID_OK then
      { ret := false, calls := [], picklist := [] }
    else
      let list := dlg.GetImportedItems
      if list = [] then
        { ret := false,
          calls := [Call.wxMessageBox "No graphic items found in file to import" none],
          picklist := [] }
      else
        let st := LOCALS.init [Call.SaveCopyInUndoList_item .UR_CHANGED]
        let st :=
          if dlg.IsPlacementInteractive then
            { st with calls := st.calls ++ [Call.HandleBlockBegin] }
          else st
        let st := list.foldl (moduleLoopBody h dlg.IsPlacementInteractive) st
        let st := { st with calls := st.calls ++ [Call.OnModify] }
        let calls := if dlg.IsPlacementInteractive then finishBlockMove h st else st.calls
        { ret := true, calls := calls, picklist := st.picklist }

/-! ## Reading a trace -/

/-- The items given to `board->Add`, in call order. -/
def boardAdds (calls : List Call) : List BOARD_ITEM :=
  calls.filterMap fun c => match c with
    | .BOARD_Add item => some item
    | _ => none

/-- The items given to `aModule->Add`, in call order. -/
def moduleAdds (calls : List Call) : List BOARD_ITEM :=
  calls.filterMap fun c => match c with
    | .MODULE_Add item => some item
    | _ => none

/-- The picklists given to `SaveCopyInUndoList( picklist, command, ... )`, with the command,
in call order. -/
def undoSaves (calls : List Call) : List (List ITEM_PICKER × UNDO_REDO_T) :=
  calls.filterMap fun c => match c with
    | .SaveCopyInUndoList picklist command => some (picklist, command)
    | _ => none

/-- The undo commands of the calls `SaveCopyInUndoList( aModule, command )`, in call order. -/
def itemUndoSaves (calls : List Call) : List UNDO_REDO_T :=
  calls.filterMap fun c => match c with
    | .SaveCopyInUndoList_item command => some command
    | _ => none

/-- The items of a picklist, in order (a picker holding `nullptr` has none). -/
def pickedItems (picklist : List ITEM_PICKER) : List BOARD_ITEM :=
  picklist.filterMap (·.item)

/-! ## What is entered, in millimetres -/

/-- The position entered in the dialog, in mm: the X and Y fields, times 25.4 when the
position unit index is not 0. -/
def enteredOffsetMM (d : DIALOG_IMPORT_GFX Box) : VECTOR2D :=
  if d.m_originImportUnits ≠ 0 then ⟨d.m_DxfPcbXCoord * 25.4, d.m_DxfPcbYCoord * 25.4⟩
  else ⟨d.m_DxfPcbXCoord, d.m_DxfPcbYCoord⟩

/-- The line width entered in the dialog, in mm: the width field, times 25.4 / 1000 when the
width unit index is 1 (mil), times 25.4 when it is 2 (inch), unchanged otherwise. -/
def enteredLineWidthMM (d : DIALOG_IMPORT_GFX Box) : ℚ :=
  if d.m_lineWidthImportUnits = 1 then d.m_textCtrlLineWidth * (25.4 / 1000)
  else if d.m_lineWidthImportUnits = 2 then d.m_textCtrlLineWidth * 25.4
  else d.m_textCtrlLineWidth

/-- The calls expected before `Load`: the selected layer, the plugin lookup, the entered
position and line width in mm, the plugin. -/
def callsBeforeLoad (h : COLLABORATORS Box) (d : DIALOG_IMPORT_GFX Box)
    (plugin : GRAPHICS_IMPORT_PLUGIN) : List Call :=
  [Call.SetLayer (h.GetLayerSelection d.m_SelLayerBox),
   Call.GetPluginByExt (h.GetExt d.m_textCtrlFileName),
   Call.SetImportOffsetMM (enteredOffsetMM d),
   Call.SetLineWidthMM (enteredLineWidthMM d),
   Call.SetPlugin plugin]

/-- The store `cfg` after the eight writes of the destructor, in the order of the writes:
layer, placement mode, file, position units, position X, position Y, line width, line width
units. -/
def writtenStore (cfg : wxConfigBase) (layer : Int) (interactive : Bool) (file : String)
    (posUnits : Int) (x y width : ℚ) (widthUnits : Int) : wxConfigBase :=
  ((((((((cfg.Write IMPORT_GFX_LAYER_OPTION_KEY (.long layer)).Write
    IMPORT_GFX_PLACEMENT_INTERACTIVE_KEY (.bool interactive)).Write
    IMPORT_GFX_LAST_FILE_KEY (.str file)).Write
    IMPORT_GFX_POSITION_UNITS_KEY (.long posUnits)).Write
    IMPORT_GFX_POSITION_X_KEY (.dbl x)).Write
    IMPORT_GFX_POSITION_Y_KEY (.dbl y)).Write
    IMPORT_GFX_LINEWIDTH_KEY (.dbl width)).Write
    IMPORT_GFX_LINEWIDTH_UNITS_KEY (.long widthUnits))

/-- Whether a call changes the board or footprint, the undo list, the modified state or
the block-move operation of the frame (a message box does not). -/
def Call.changesDocument : Call → Bool
  | .HandleBlockBegin => true
  | .SetFlags _ _ => true
  | .BOARD_Add _ => true
  | .MODULE_Add _ => true
  | .blockitemsList_PushItem _ => true
  | .SaveCopyInUndoList _ _ => true
  | .SaveCopyInUndoList_item _ => true
  | .OnModify => true
  | .SetOrigin _ => true
  | .SetSize _ => true
  | .SetLastCursorPosition _ => true
  | .HandleBlockEnd => true
  | _ => false

/-- The pickers pushed on the item list of the block selector, in call order. -/
def blockPushes (calls : List Call) : List ITEM_PICKER :=
  calls.filterMap fun c => match c with
    | .blockitemsList_PushItem picker => some picker
    | _ => none

/-- The items given to `SetFlags`, with the flag, in call order. -/
def flaggedItems (calls : List Call) : List (BOARD_ITEM × STATUS_FLAGS) :=
  calls.filterMap fun c => match c with
    | .SetFlags item flag => some (item, flag)
    | _ => none

/-- The origins given to `blockmove.SetOrigin`, in call order. -/
def blockOrigins (calls : List Call) : List wxPoint :=
  calls.filterMap fun c => match c with
    | .SetOrigin pos => some pos
    | _ => none

/-- The sizes given to `blockmove.SetSize`, in call order. -/
def blockSizes (calls : List Call) : List wxPoint :=
  calls.filterMap fun c => match c with
    | .SetSize size => some size
    | _ => none

/-- The bounding box of the first item merged successively with the bounding box of every
later item. -/
def mergedBox (h : COLLABORATORS Box) (first : BOARD_ITEM) (later : List BOARD_ITEM) :
    EDA_RECT :=
  later.foldl (fun box item => h.Merge box (h.GetBoundingBox item)) (h.GetBoundingBox first)

/-- The rectangle `a` contains the rectangle `b`: origin and far corner of `b` lie between
those of `a`, in both coordinates. -/
def EDA_RECT.Contains (a b : EDA_RECT) : Prop :=
  a.m_Pos.x ≤ b.m_Pos.x ∧ a.m_Pos.y ≤ b.m_Pos.y ∧
  b.m_Pos.x + b.m_Size.x ≤ a.m_Pos.x + a.m_Size.x ∧
  b.m_Pos.y + b.m_Size.y ≤ a.m_Pos.y + a.m_Size.y

/-- The messages of the "Not Handled Items" boxes (the message boxes with a caption), in call
order. -/
def warningBoxes (calls : List Call) : List String :=
  calls.filterMap fun c => match c with
    | .wxMessageBox message (some _) => some message
    | _ => none

/-- The calls up to and including `Load`, and `Import` when `Load` returned true. -/
def callsUpToImport (h : COLLABORATORS Box) (d : DIALOG_IMPORT_GFX Box)
    (plugin : GRAPHICS_IMPORT_PLUGIN) : List Call :=
  callsBeforeLoad h d plugin ++ Call.Load d.m_textCtrlFileName ::
    (if h.Load (callsBeforeLoad h d plugin) d.m_textCtrlFileName
     then [Call.Import d.m_textCtrlImportScale] else [])

/-! ## Concrete collaborators and states, to evaluate the code on -/

/-- Collaborators to run the code with: the layer selector is the selected layer (-1 for
none) and offers the layers 40 to 49; there is a plugin for "dxf" and one for "svg"; a file
loads when its name is "outline.dxf", and the importer then has nothing to report. -/
def sampleHost : COLLABORATORS Int where
  Dwgs_User := 40
  SetLayerSelection := fun _ layer =>
    if 40 ≤ layer ∧ layer ≤ 49 then (layer, layer - 40) else (-1, -1)
  GetLayerSelection := fun box => box
  GetExt := fun name =>
    if name = "outline.dxf" then "dxf" else if name = "logo.svg" then "svg"
    else if name = "notes.txt" then "txt" else ""
  GetPluginByExt := fun ext =>
    if ext = "dxf" then some ⟨"AutoCAD DXF", "*.dxf"⟩
    else if ext = "svg" then some ⟨"Scalable Vector Graphics", "*.svg"⟩
    else none
  Load := fun _ name => name = "outline.dxf"
  GetMessages := fun calls => if calls.any (fun c => c matches .Import _) then "" else "no file"
  GetBoundingBox := fun item => ⟨⟨item, item⟩, ⟨10, 10⟩⟩
  Merge := fun a b =>
    ⟨⟨min a.m_Pos.x b.m_Pos.x, min a.m_Pos.y b.m_Pos.y⟩,
     ⟨max (a.m_Pos.x + a.m_Size.x) (b.m_Pos.x + b.m_Size.x) - min a.m_Pos.x b.m_Pos.x,
      max (a.m_Pos.y + a.m_Size.y) (b.m_Pos.y + b.m_Size.y) - min a.m_Pos.y b.m_Pos.y⟩⟩
  Centre := fun r => ⟨r.m_Pos.x + r.m_Size.x / 2, r.m_Pos.y + r.m_Size.y / 2⟩
  GetNearestGridPosition := fun p => p

/-- A dialog as the user may leave it: file "outline.dxf", layer 41 selected, position
(1, 2) in inches, line width 1 inch, scale 3, absolute placement. -/
def sampleDialog : DIALOG_IMPORT_GFX Int :=
  { m_filename := "", m_placementInteractive := false, m_layer := 40, m_scaleImport := 1,
    m_config := some [],
    m_originImportUnits := 1, m_importOrigin := ⟨0, 0⟩, m_default_lineWidth := 0.2,
    m_lineWidthImportUnits := 2, m_choiceUnitLineWidth := 2, m_textCtrlLineWidth := 1,
    m_DxfPcbPositionUnits := 1, m_DxfPcbXCoord := 1, m_DxfPcbYCoord := 2,
    m_textCtrlFileName := "outline.dxf", m_rbInteractivePlacement := false,
    m_rbAbsolutePlacement := true, m_textCtrlImportScale := 3, m_SelLayerBox := 41 }

/-- An accepted dialog that imported the items 7, 3 and 9, with interactive placement. -/
def sampleOutcome : MODAL_OUTCOME :=
  { ShowModal := wxID_OK, GetImportedItems := [7, 3, 9], IsPlacementInteractive := true }

end ImportGfx

/-! # The hotkeys of the Gerber viewer

A shallow embedding of `gerbview/hotkeys.cpp`: the hotkey table and `GERBVIEW_FRAME::OnHotKey`.
The key code constants of the toolkit, `GERBER_DRAWLAYERS_COUNT` and the table lookup
`GetDescriptorFromHotkey` are declared elsewhere and are parameters here. Of the frame, the
state is what `OnHotKey` reads or sets; a setter of the frame makes the matching getter
return the value set, and the calls made are recorded in program order. -/

namespace GerbviewHotkeys

/-- The command ids used in this file (`hotkey_id_commnand`). -/
inductive hotkey_id_commnand where
  | HK_NOT_FOUND
  | HK_HELP
  | HK_ZOOM_IN
  | HK_ZOOM_OUT
  | HK_ZOOM_REDRAW
  | HK_ZOOM_CENTER
  | HK_ZOOM_SELECTION
  | HK_ZOOM_AUTO
  | HK_RESET_LOCAL_COORD
  | HK_SWITCH_UNITS
  | HK_GBR_LINES_DISPLAY_MODE
  | HK_GBR_FLASHED_DISPLAY_MODE
  | HK_GBR_POLYGON_DISPLAY_MODE
  | HK_GBR_NEGATIVE_DISPLAY_ONOFF
  | HK_GBR_DCODE_DISPLAY_ONOFF
  | HK_SWITCH_HIGHCONTRAST_MODE
  | HK_SWITCH_LAYER_TO_PREVIOUS
  | HK_SWITCH_LAYER_TO_NEXT
  | HK_CANVAS_CAIRO
  | HK_CANVAS_OPENGL
  | HK_CANVAS_LEGACY
  | HK_MEASURE_TOOL
deriving DecidableEq

/-- A hotkey descriptor `EDA_HOTKEY( label, command id, key code )`. -/
structure EDA_HOTKEY where
  m_InfoMsg : String
  m_Idcommand : hotkey_id_commnand
  m_KeyCode : Int
deriving DecidableEq

/-- The key code constants the table is built from, and whether `__WXMAC__` is defined. -/
structure KEY_CODES where
  WXK_HOME : Int
  WXK_F1 : Int
  WXK_F2 : Int
  WXK_F3 : Int
  WXK_F4 : Int
  WXK_F5 : Int
  WXK_F9 : Int
  WXK_F11 : Int
  WXK_F12 : Int
  GR_KB_CTRL : Int
  GR_KB_ALT : Int
  GR_KB_SHIFTCTRL : Int
  WXMAC : Bool

/-- The code of a character constant. -/
def charCode (c : Char) : Int := c.toNat

def HkZoomAuto (k : KEY_CODES) : EDA_HOTKEY := ⟨"Zoom Auto", .HK_ZOOM_AUTO, k.WXK_HOME⟩
def HkZoomCenter (k : KEY_CODES) : EDA_HOTKEY := ⟨"Zoom Center", .HK_ZOOM_CENTER, k.WXK_F4⟩
def HkZoomRedraw (k : KEY_CODES) : EDA_HOTKEY := ⟨"Zoom Redraw", .HK_ZOOM_REDRAW, k.WXK_F3⟩
def HkZoomOut (k : KEY_CODES) : EDA_HOTKEY := ⟨"Zoom Out", .HK_ZOOM_OUT, k.WXK_F2⟩
def HkZoomIn (k : KEY_CODES) : EDA_HOTKEY := ⟨"Zoom In", .HK_ZOOM_IN, k.WXK_F1⟩
def HkZoomSelection (k : KEY_CODES) : EDA_HOTKEY :=
  ⟨"Zoom to Selection", .HK_ZOOM_SELECTION, k.GR_KB_CTRL + k.WXK_F5⟩
def HkHelp (k : KEY_CODES) : EDA_HOTKEY := ⟨"List Hotkeys", .HK_HELP, k.GR_KB_CTRL + k.WXK_F1⟩
def HkSwitchUnits (_k : KEY_CODES) : EDA_HOTKEY :=
  ⟨"Switch Units", .HK_SWITCH_UNITS, charCode 'U'⟩
def HkResetLocalCoord (_k : KEY_CODES) : EDA_HOTKEY :=
  ⟨"Reset Local Coordinates", .HK_RESET_LOCAL_COORD, charCode ' '⟩
def HkSwitchHighContrastMode (k : KEY_CODES) : EDA_HOTKEY :=
  ⟨"Toggle High Contrast Mode", .HK_SWITCH_HIGHCONTRAST_MODE, charCode 'H' + k.GR_KB_CTRL⟩
def HkLinesDisplayMode (_k : KEY_CODES) : EDA_HOTKEY :=
  ⟨"Gbr Lines Display Mode", .HK_GBR_LINES_DISPLAY_MODE, charCode 'L'⟩
def HkFlashedDisplayMode (_k : KEY_CODES) : EDA_HOTKEY :=
  ⟨"Gbr Flashed Display Mode", .HK_GBR_FLASHED_DISPLAY_MODE, charCode 'F'⟩
def HkPolygonDisplayMode (_k : KEY_CODES) : EDA_HOTKEY :=
  ⟨"Gbr Polygons Display Mode", .HK_GBR_POLYGON_DISPLAY_MODE, charCode 'P'⟩
def HkNegativeObjDisplayMode (_k : KEY_CODES) : EDA_HOTKEY :=
  ⟨"Gbr Negative Obj Display Mode", .HK_GBR_NEGATIVE_DISPLAY_ONOFF, charCode 'N'⟩
def HkDCodesDisplayMode (_k : KEY_CODES) : EDA_HOTKEY :=
  ⟨"DCodes Display Mode", .HK_GBR_DCODE_DISPLAY_ONOFF, charCode 'D'⟩
def HkSwitch2NextCopperLayer (_k : KEY_CODES) : EDA_HOTKEY :=
  ⟨"Switch to Next Layer", .HK_SWITCH_LAYER_TO_NEXT, charCode '+'⟩
def HkSwitch2PreviousCopperLayer (_k : KEY_CODES) : EDA_HOTKEY :=
  ⟨"Switch to Previous Layer", .HK_SWITCH_LAYER_TO_PREVIOUS, charCode '-'⟩
def HkCanvasDefault (k : KEY_CODES) : EDA_HOTKEY :=
  ⟨"Switch to Legacy Toolset", .HK_CANVAS_LEGACY,
   (if k.WXMAC then k.GR_KB_ALT else 0) + k.WXK_F9⟩
def HkCanvasOpenGL (k : KEY_CODES) : EDA_HOTKEY :=
  ⟨"Switch to Modern Toolset with hardware-accelerated graphics (recommended)",
   .HK_CANVAS_OPENGL, (if k.WXMAC then k.GR_KB_ALT else 0) + k.WXK_F11⟩
def HkCanvasCairo (k : KEY_CODES) : EDA_HOTKEY :=
  ⟨"Switch to Modern Toolset with software graphics (fall-back)",
   .HK_CANVAS_CAIRO, (if k.WXMAC then k.GR_KB_ALT else 0) + k.WXK_F12⟩
def HkMeasureTool (k : KEY_CODES) : EDA_HOTKEY :=
  ⟨"Measure Distance (Modern Toolset only)", .HK_MEASURE_TOOL,
   charCode 'M' + k.GR_KB_SHIFTCTRL⟩

/-- List of common hotkey descriptors (`gerbviewHotkeyList`, without the closing `NULL`). -/
def gerbviewHotkeyList (k : KEY_CODES) : List EDA_HOTKEY :=
  [HkHelp k,
   HkZoomIn k, HkZoomOut k, HkZoomRedraw k, HkZoomCenter k,
   HkZoomAuto k, HkZoomSelection k, HkSwitchUnits k, HkResetLocalCoord k,
   HkLinesDisplayMode k, HkFlashedDisplayMode k, HkPolygonDisplayMode k,
   HkDCodesDisplayMode k, HkNegativeObjDisplayMode k,
   HkSwitchHighContrastMode k,
   HkSwitch2NextCopperLayer k,
   HkSwitch2PreviousCopperLayer k,
   HkCanvasDefault k,
   HkCanvasOpenGL k,
   HkCanvasCairo k,
   HkMeasureTool k]

/-- What `OnHotKey` needs from declarations that are elsewhere. -/
structure GERBVIEW_ENV where
  keys : KEY_CODES
  GERBER_DRAWLAYERS_COUNT : Int
  /-- `GetDescriptorFromHotkey( aKey, aList )`, `none` for `NULL` -/
  GetDescriptorFromHotkey : Int → List EDA_HOTKEY → Option EDA_HOTKEY

/-- The user units `GetUserUnits()` may return. -/
inductive EDA_UNITS_T where
  | INCHES
  | MILLIMETRES
  | UNSCALED_UNITS
deriving DecidableEq

/-- The ids of the command events `OnHotKey` sends. -/
inductive COMMAND_ID where
  | ID_KEY_ZOOM_IN
  | ID_KEY_ZOOM_OUT
  | ID_ZOOM_REDRAW
  | ID_POPUP_ZOOM_CENTER
  | ID_ZOOM_PAGE
  | ID_TB_OPTIONS_SELECT_UNIT_MM
  | ID_TB_OPTIONS_SELECT_UNIT_INCH
  | ID_MENU_CANVAS_CAIRO
  | ID_MENU_CANVAS_OPENGL
  | ID_MENU_CANVAS_LEGACY
deriving DecidableEq

/-- The two visibility elements `OnHotKey` toggles. -/
inductive GERBVIEW_LAYER_ID where
  | LAYER_NEGATIVE_OBJECTS
  | LAYER_DCODES
deriving DecidableEq

/-- A call `OnHotKey` makes, with its arguments (`Refresh()` has none). -/
inductive FrameCall where
  | DisplayHotkeyList
  | ProcessEvent (id : COMMAND_ID)
  | Refresh (eraseBackground : Option Bool)
  | SetActiveLayer (aLayer : Int) (doLayerWidgetUpdate : Bool)
  | SetElementVisibility (aItemIdVisible : GERBVIEW_LAYER_ID) (aNewState : Bool)
deriving DecidableEq

/-- The state of the frame that `OnHotKey` reads or sets: the four display options, what
`GetActiveLayer()`, `IsElementVisible( ... )`, `GetCrossHairPosition()` and `GetUserUnits()`
return, and `GetScreen()->m_O_Curseur`. -/
structure GERBVIEW_FRAME where
  m_DisplayLinesFill : Bool
  m_DisplayFlashedItemsFill : Bool
  m_DisplayPolygonsFill : Bool
  m_HighContrastMode : Bool
  activeLayer : Int
  negativeObjectsVisible : Bool
  dcodesVisible : Bool
  crossHairPosition : ImportGfx.wxPoint
  m_O_Curseur : ImportGfx.wxPoint
  userUnits : EDA_UNITS_T

/-- The result of `OnHotKey`: the value returned, the frame afterwards, the calls made. -/
structure HOTKEY_RESULT where
  ret : Bool
  frame : GERBVIEW_FRAME
  calls : List FrameCall

/-- The conversion of lower to upper case at the head of `OnHotKey`. -/
def upperCaseCode (aHotkeyCode : Int) : Int :=
  if charCode 'a' ≤ aHotkeyCode ∧ aHotkeyCode ≤ charCode 'z' then
    aHotkeyCode + (charCode 'A' - charCode 'a')
  else aHotkeyCode

/-- The switch of `GERBVIEW_FRAME::OnHotKey` on the command id of the descriptor found. -/
def dispatch (e : GERBVIEW_ENV) (f : GERBVIEW_FRAME) : hotkey_id_commnand → HOTKEY_RESULT
  | .HK_NOT_FOUND => ⟨false, f, []⟩
  | .HK_HELP => ⟨true, f, [.DisplayHotkeyList]⟩
  | .HK_ZOOM_IN => ⟨true, f, [.ProcessEvent .ID_KEY_ZOOM_IN]⟩
  | .HK_ZOOM_OUT => ⟨true, f, [.ProcessEvent .ID_KEY_ZOOM_OUT]⟩
  | .HK_ZOOM_REDRAW => ⟨true, f, [.ProcessEvent .ID_ZOOM_REDRAW]⟩
  | .HK_ZOOM_CENTER => ⟨true, f, [.ProcessEvent .ID_POPUP_ZOOM_CENTER]⟩
  | .HK_ZOOM_SELECTION => ⟨true, f, []⟩
  | .HK_ZOOM_AUTO => ⟨true, f, [.ProcessEvent .ID_ZOOM_PAGE]⟩
  | .HK_RESET_LOCAL_COORD => ⟨true, { f with m_O_Curseur := f.crossHairPosition }, []⟩
  | .HK_SWITCH_UNITS =>
    ⟨true, f, [.ProcessEvent (if f.userUnits = .INCHES then .ID_TB_OPTIONS_SELECT_UNIT_MM
                              else .ID_TB_OPTIONS_SELECT_UNIT_INCH)]⟩
  | .HK_GBR_LINES_DISPLAY_MODE =>
    ⟨true, { f with m_DisplayLinesFill := !f.m_DisplayLinesFill }, [.Refresh none]⟩
  | .HK_GBR_FLASHED_DISPLAY_MODE =>
    ⟨true, { f with m_DisplayFlashedItemsFill := !f.m_DisplayFlashedItemsFill },
     [.Refresh (some true)]⟩
  | .HK_GBR_POLYGON_DISPLAY_MODE =>
    ⟨true, { f with m_DisplayPolygonsFill := !f.m_DisplayPolygonsFill }, [.Refresh none]⟩
  | .HK_GBR_NEGATIVE_DISPLAY_ONOFF =>
    ⟨true, { f with negativeObjectsVisible := !f.negativeObjectsVisible },
     [.SetElementVisibility .LAYER_NEGATIVE_OBJECTS (!f.negativeObjectsVisible),
      .Refresh none]⟩
  | .HK_GBR_DCODE_DISPLAY_ONOFF =>
    ⟨true, { f with dcodesVisible := !f.dcodesVisible },
     [.SetElementVisibility .LAYER_DCODES (!f.dcodesVisible), .Refresh none]⟩
  | .HK_SWITCH_HIGHCONTRAST_MODE =>
    ⟨true, { f with m_HighContrastMode := !f.m_HighContrastMode }, [.Refresh none]⟩
  | .HK_SWITCH_LAYER_TO_PREVIOUS =>
    if f.activeLayer > 0 then
      ⟨true, { f with activeLayer := f.activeLayer - 1 },
       [.SetActiveLayer (f.activeLayer - 1) true, .Refresh none]⟩
    else ⟨true, f, []⟩
  | .HK_SWITCH_LAYER_TO_NEXT =>
    if f.activeLayer < e.GERBER_DRAWLAYERS_COUNT - 1 then
      ⟨true, { f with activeLayer := f.activeLayer + 1 },
       [.SetActiveLayer (f.activeLayer + 1) true, .Refresh none]⟩
    else ⟨true, f, []⟩
  | .HK_CANVAS_CAIRO => ⟨true, f, [.ProcessEvent .ID_MENU_CANVAS_CAIRO]⟩
  | .HK_CANVAS_OPENGL => ⟨true, f, [.ProcessEvent .ID_MENU_CANVAS_OPENGL]⟩
  | .HK_CANVAS_LEGACY => ⟨true, f, [.ProcessEvent .ID_MENU_CANVAS_LEGACY]⟩
  | _ => ⟨false, f, []⟩

/-- `GERBVIEW_FRAME::OnHotKey`. -/
def OnHotKey (e : GERBVIEW_ENV) (f : GERBVIEW_FRAME) (aHotkeyCode : Int) : HOTKEY_RESULT :=
  let aHotkeyCode := upperCaseCode aHotkeyCode
  match e.GetDescriptorFromHotkey aHotkeyCode (gerbviewHotkeyList e.keys) with
  | none => ⟨false, f, []⟩
  | some HK_Descr => dispatch e f HK_Descr.m_Idcommand

/-- The layers given to `SetActiveLayer`, in call order. -/
def activeLayerSets (calls : List FrameCall) : List Int :=
  calls.filterMap fun c => match c with
    | .SetActiveLayer aLayer _ => some aLayer
    | _ => none

/-- An environment to run `OnHotKey` in: the key codes of the toolkit on a platform other
than the Mac, 32 draw layers, and the lookup of the first descriptor with the key code. -/
def sampleEnv : GERBVIEW_ENV where
  keys :=
    { WXK_HOME := 313, WXK_F1 := 340, WXK_F2 := 341, WXK_F3 := 342, WXK_F4 := 343,
      WXK_F5 := 344, WXK_F9 := 348, WXK_F11 := 350, WXK_F12 := 351,
      GR_KB_CTRL := 1073741824, GR_KB_ALT := 2147483648, GR_KB_SHIFTCTRL := 1879048192,
      WXMAC := false }
  GERBER_DRAWLAYERS_COUNT := 32
  GetDescriptorFromHotkey := fun aKey aList => aList.find? (fun hk => hk.m_KeyCode == aKey)

/-- A frame with the active layer 31, the last of 32. -/
def sampleFrame : GERBVIEW_FRAME :=
  { m_DisplayLinesFill := true, m_DisplayFlashedItemsFill := true,
    m_DisplayPolygonsFill := true, m_HighContrastMode := false, activeLayer := 31,
    negativeObjectsVisible := false, dcodesVisible := true, crossHairPosition := ⟨5, 6⟩,
    m_O_Curseur := ⟨0, 0⟩, userUnits := .INCHES }

end GerbviewHotkeys

namespace ImportGfx

variable {Box : Type}

/-! ## Unit round trips -/

/-- The nearest integer is at most one half away. -/
theorem roundHalfEven_close (q : ℚ) : |(roundHalfEven q : ℚ) - q| ≤ 1 / 2 := by
  have h1 : (⌊q⌋ : ℚ) ≤ q := Int.floor_le q
  have h2 : q < ⌊q⌋ + 1 := Int.lt_floor_add_one q
  unfold roundHalfEven
  rw [abs_le]
  split_ifs <;> push_cast <;> constructor <;> linarith

/-- A number less than one half away from an integer is rounded to it. -/
theorem roundHalfEven_eq (q : ℚ) (n : Int) (hlo : (n : ℚ) - 1 / 2 < q)
    (hhi : q < n + 1 / 2) : roundHalfEven q = n := by
  have h1 : (⌊q⌋ : ℚ) ≤ q := Int.floor_le q
  have h2 : q < ⌊q⌋ + 1 := Int.lt_floor_add_one q
  unfold roundHalfEven
  split_ifs with ha hb hc
  · have u1 : ((⌊q⌋ : Int) : ℚ) < ((n + 1 : Int) : ℚ) := by push_cast; linarith
    have u2 : ((n : Int) : ℚ) < ((⌊q⌋ + 1 : Int) : ℚ) := by push_cast; linarith
    have v1 : ⌊q⌋ < n + 1 := by exact_mod_cast u1
    have v2 : n < ⌊q⌋ + 1 := by exact_mod_cast u2
    omega
  · have u1 : ((⌊q⌋ : Int) : ℚ) < ((n : Int) : ℚ) := by linarith
    have u2 : ((n : Int) : ℚ) < ((⌊q⌋ + 2 : Int) : ℚ) := by push_cast; linarith
    have v1 : ⌊q⌋ < n := by exact_mod_cast u1
    have v2 : n < ⌊q⌋ + 2 := by exact_mod_cast u2
    omega
  all_goals
    exfalso
    have heq : q - ⌊q⌋ = 1 / 2 := le_antisymm (not_lt.mp hb) (not_lt.mp ha)
    have u1 : ((⌊q⌋ : Int) : ℚ) < ((n : Int) : ℚ) := by linarith
    have u2 : ((n : Int) : ℚ) < ((⌊q⌋ + 1 : Int) : ℚ) := by push_cast; linarith
    have v1 : ⌊q⌋ < n := by exact_mod_cast u1
    have v2 : n < ⌊q⌋ + 1 := by exact_mod_cast u2
    omega

/-- A number written with `"%f"` moves by at most half a unit of the sixth decimal. -/
theorem formatF_close (v : ℚ) : |formatF v - v| ≤ 0.0000005 := by
  have hr := roundHalfEven_close (v * 1000000)
  rw [abs_le] at hr ⊢
  unfold formatF
  constructor
  · have := hr.1
    rw [le_sub_iff_add_le, le_div_iff₀ (by norm_num)]
    norm_num at this ⊢
    linarith
  · have := hr.2
    rw [sub_le_iff_le_add, div_le_iff₀ (by norm_num)]
    norm_num at this ⊢
    linarith

/-- The number that `"%f"` writes for a number less than half a unit of the sixth decimal
away from `n / 1000000`. -/
theorem formatF_eq (v : ℚ) (n : Int) (hlo : (n : ℚ) - 1 / 2 < v * 1000000)
    (hhi : v * 1000000 < n + 1 / 2) : formatF v = n / 1000000 := by
  unfold formatF
  rw [roundHalfEven_eq _ n hlo hhi]

/-- C6, the claim as stated, fails: the field is written with `"%f"`, so a line width of
0.2 mm shown in inch (0.007874) is read back as 0.1999996 mm and shown in mil (7.874016) as
0.2000000064 mm, and a line width of 0.00001 mm shown in inch (0.000000) is read back
as 0. -/
theorem lineWidth_unit_round_trip_counterexample :
    getPCBdefaultLineWidthMM (showPCBdefaultLineWidth
      { sampleDialog with m_lineWidthImportUnits := 2, m_default_lineWidth := 0.2 })
      = 0.1999996 ∧
    getPCBdefaultLineWidthMM (showPCBdefaultLineWidth
      { sampleDialog with m_lineWidthImportUnits := 2, m_default_lineWidth := 0.2 }) ≠ 0.2 ∧
    getPCBdefaultLineWidthMM (showPCBdefaultLineWidth
      { sampleDialog with m_lineWidthImportUnits := 1, m_default_lineWidth := 0.2 })
      = 0.2000000064 ∧
    getPCBdefaultLineWidthMM (showPCBdefaultLineWidth
      { sampleDialog with m_lineWidthImportUnits := 2, m_default_lineWidth := 0.00001 })
      = 0 := by
  have e1 : formatF (1 / 127) = ((7874 : Int) : ℚ) / 1000000 :=
    formatF_eq _ 7874 (by norm_num) (by norm_num)
  have e2 : formatF (1000 / 127) = ((7874016 : Int) : ℚ) / 1000000 :=
    formatF_eq _ 7874016 (by norm_num) (by norm_num)
  have e3 : formatF (1 / 2540000) = ((0 : Int) : ℚ) / 1000000 :=
    formatF_eq _ 0 (by norm_num) (by norm_num)
  have r1 : getPCBdefaultLineWidthMM (showPCBdefaultLineWidth
      { sampleDialog with m_lineWidthImportUnits := 2, m_default_lineWidth := 0.2 })
      = 0.1999996 := by
    simp only [getPCBdefaultLineWidthMM, showPCBdefaultLineWidth]
    norm_num [e1]
  refine ⟨r1, ?_, ?_, ?_⟩
  · rw [r1]; norm_num
  · simp only [getPCBdefaultLineWidthMM, showPCBdefaultLineWidth]
    norm_num [e2]
  · simp only [getPCBdefaultLineWidthMM, showPCBdefaultLineWidth]
    norm_num [e3]

/-- C6, amended: a line width `w` in mm is shown by `showPCBdefaultLineWidth` in the unit of
the dialog (times 1000 / 25.4 for mil, divided by 25.4 for inch, unchanged for mm and for any
other index) with six decimals, and read back by `getPCBdefaultLineWidthMM` (times 25.4 / 1000
for mil, times 25.4 for inch); what is read back differs from `w` by at most half a unit of
the sixth decimal of the shown value, that is 0.0000005 * 25.4 / 1000 mm for mil,
0.0000005 * 25.4 mm for inch and 0.0000005 mm otherwise, and it is `w` when the value to show
has no more than six decimals. -/
theorem lineWidth_unit_round_trip_up_to_display (d : DIALOG_IMPORT_GFX Box) (v : ℚ) :
    (showPCBdefaultLineWidth d).m_textCtrlLineWidth =
      formatF (if d.m_lineWidthImportUnits = 1 then d.m_default_lineWidth / 25.4 * 1000
               else if d.m_lineWidthImportUnits = 2 then d.m_default_lineWidth / 25.4
               else d.m_default_lineWidth) ∧
    getPCBdefaultLineWidthMM { d with m_textCtrlLineWidth := v } =
      (if d.m_lineWidthImportUnits = 1 then v * 25.4 / 1000
       else if d.m_lineWidthImportUnits = 2 then v * 25.4
       else v) ∧
    |getPCBdefaultLineWidthMM (showPCBdefaultLineWidth d) - d.m_default_lineWidth| ≤
      (if d.m_lineWidthImportUnits = 1 then 0.0000005 * 25.4 / 1000
       else if d.m_lineWidthImportUnits = 2 then 0.0000005 * 25.4
       else 0.0000005) ∧
    (formatF (if d.m_lineWidthImportUnits = 1 then d.m_default_lineWidth / 25.4 * 1000
              else if d.m_lineWidthImportUnits = 2 then d.m_default_lineWidth / 25.4
              else d.m_default_lineWidth) =
        (if d.m_lineWidthImportUnits = 1 then d.m_default_lineWidth / 25.4 * 1000
         else if d.m_lineWidthImportUnits = 2 then d.m_default_lineWidth / 25.4
         else d.m_default_lineWidth) →
      getPCBdefaultLineWidthMM (showPCBdefaultLineWidth d) = d.m_default_lineWidth) := by
  refine ⟨rfl, ?_, ?_, ?_⟩
  · unfold getPCBdefaultLineWidthMM
    by_cases h1 : d.m_lineWidthImportUnits = 1
    · simp only [h1, if_true]; ring
    · by_cases h2 : d.m_lineWidthImportUnits = 2
      · simp only [h2, if_true]; norm_num
      · simp only [h1, h2, if_false]
  · unfold getPCBdefaultLineWidthMM showPCBdefaultLineWidth
    by_cases h1 : d.m_lineWidthImportUnits = 1
    · simp only [h1, if_true]
      have hc := formatF_close (d.m_default_lineWidth / 25.4 * 1000)
      rw [abs_le] at hc ⊢
      norm_num at hc ⊢
      constructor <;> linarith [hc.1, hc.2]
    · by_cases h2 : d.m_lineWidthImportUnits = 2
      · simp only [h2, if_true]
        have hc := formatF_close (d.m_default_lineWidth / 25.4)
        rw [abs_le] at hc ⊢
        norm_num at hc ⊢
        constructor <;> linarith [hc.1, hc.2]
      · simp only [h1, h2, if_false]
        exact formatF_close _
  · intro hexact
    unfold getPCBdefaultLineWidthMM showPCBdefaultLineWidth
    simp only []
    rw [hexact]
    by_cases h1 : d.m_lineWidthImportUnits = 1
    · simp only [h1, if_true]; ring
    · by_cases h2 : d.m_lineWidthImportUnits = 2
      · simp only [h2, if_true]; norm_num
      · simp only [h1, h2, if_false]

/-- Evaluation of the amended C6 on a line width of 25.4 mm shown in inch: 1.000000 is
shown and 25.4 mm is read back. -/
theorem lineWidth_unit_round_trip_up_to_display_witness :
    formatF ((25.4 : ℚ) / 25.4) = (25.4 : ℚ) / 25.4 ∧
    getPCBdefaultLineWidthMM (showPCBdefaultLineWidth
      { sampleDialog with m_lineWidthImportUnits := 2, m_default_lineWidth := 25.4 }) = 25.4 := by
  have e1 : formatF ((25.4 : ℚ) / 25.4) = (25.4 : ℚ) / 25.4 := by
    rw [formatF_eq _ 1000000 (by norm_num) (by norm_num)]
    norm_num
  exact ⟨e1, (lineWidth_unit_round_trip_up_to_display
    { sampleDialog with m_lineWidthImportUnits := 2, m_default_lineWidth := 25.4 } 0).2.2.2 e1⟩

/-- C7, the claim as stated, fails: the X and Y fields are written with `"%f"`, so the
origin (1, 2) mm shown in inches (0.039370, 0.078740) is read back as (0.999998, 1.999996) mm,
and with the unit index 0 the origin (0.1234567, 0) mm is shown and read back as
(0.123457, 0) mm. -/
theorem importOrigin_unit_round_trip_counterexample :
    (updatePcbImportOffsets_mm (showPcbImportOffsets
      { sampleDialog with m_originImportUnits := 1, m_importOrigin := ⟨1, 2⟩ })).m_importOrigin
      = ⟨0.999998, 1.999996⟩ ∧
    (updatePcbImportOffsets_mm (showPcbImportOffsets
      { sampleDialog with m_originImportUnits := 1, m_importOrigin := ⟨1, 2⟩ })).m_importOrigin
      ≠ ⟨1, 2⟩ ∧
    (updatePcbImportOffsets_mm (showPcbImportOffsets
      { sampleDialog with m_originImportUnits := 0,
                          m_importOrigin := ⟨0.1234567, 0⟩ })).m_importOrigin
      = ⟨0.123457, 0⟩ := by
  have e1 : formatF (5 / 127) = ((39370 : Int) : ℚ) / 1000000 :=
    formatF_eq _ 39370 (by norm_num) (by norm_num)
  have e2 : formatF (10 / 127) = ((78740 : Int) : ℚ) / 1000000 :=
    formatF_eq _ 78740 (by norm_num) (by norm_num)
  have e3 : formatF (1234567 / 10000000) = ((123457 : Int) : ℚ) / 1000000 :=
    formatF_eq _ 123457 (by norm_num) (by norm_num)
  have e4 : formatF 0 = ((0 : Int) : ℚ) / 1000000 :=
    formatF_eq _ 0 (by norm_num) (by norm_num)
  have r1 : (updatePcbImportOffsets_mm (showPcbImportOffsets
      { sampleDialog with m_originImportUnits := 1, m_importOrigin := ⟨1, 2⟩ })).m_importOrigin
      = ⟨0.999998, 1.999996⟩ := by
    simp only [updatePcbImportOffsets_mm, showPcbImportOffsets, VECTOR2D.div, VECTOR2D.mul]
    norm_num [e1, e2]
  refine ⟨r1, ?_, ?_⟩
  · rw [r1]
    intro hc
    have hx := congrArg VECTOR2D.x hc
    norm_num at hx
  · simp only [updatePcbImportOffsets_mm, showPcbImportOffsets, VECTOR2D.div, VECTOR2D.mul]
    norm_num [e3, e4]

/-- C7, amended: an import origin in mm is shown by `showPcbImportOffsets` (divided by 25.4
when the position unit index is not 0, unchanged when it is 0) with six decimals, and read
back by `updatePcbImportOffsets_mm` (times 25.4 when the index is not 0, unchanged when it is
0); what is read back differs from the origin, in each coordinate, by at most half a unit of
the sixth decimal of the shown value, that is 0.0000005 * 25.4 mm when the index is not 0 and
0.0000005 mm when it is 0, and it is the origin when the values to show have no more than six
decimals. -/
theorem importOrigin_unit_round_trip_up_to_display (d : DIALOG_IMPORT_GFX Box) :
    (showPcbImportOffsets d).m_DxfPcbXCoord =
      formatF (if d.m_originImportUnits ≠ 0 then d.m_importOrigin.x / 25.4
               else d.m_importOrigin.x) ∧
    (showPcbImportOffsets d).m_DxfPcbYCoord =
      formatF (if d.m_originImportUnits ≠ 0 then d.m_importOrigin.y / 25.4
               else d.m_importOrigin.y) ∧
    (updatePcbImportOffsets_mm d).m_importOrigin =
      (if d.m_originImportUnits ≠ 0 then ⟨d.m_DxfPcbXCoord * 25.4, d.m_DxfPcbYCoord * 25.4⟩
       else ⟨d.m_DxfPcbXCoord, d.m_DxfPcbYCoord⟩) ∧
    |(updatePcbImportOffsets_mm (showPcbImportOffsets d)).m_importOrigin.x - d.m_importOrigin.x|
      ≤ (if d.m_originImportUnits ≠ 0 then 0.0000005 * 25.4 else 0.0000005) ∧
    |(updatePcbImportOffsets_mm (showPcbImportOffsets d)).m_importOrigin.y - d.m_importOrigin.y|
      ≤ (if d.m_originImportUnits ≠ 0 then 0.0000005 * 25.4 else 0.0000005) ∧
    (formatF (if d.m_originImportUnits ≠ 0 then d.m_importOrigin.x / 25.4
              else d.m_importOrigin.x) =
        (if d.m_originImportUnits ≠ 0 then d.m_importOrigin.x / 25.4 else d.m_importOrigin.x) →
      formatF (if d.m_originImportUnits ≠ 0 then d.m_importOrigin.y / 25.4
               else d.m_importOrigin.y) =
        (if d.m_originImportUnits ≠ 0 then d.m_importOrigin.y / 25.4 else d.m_importOrigin.y) →
      (updatePcbImportOffsets_mm (showPcbImportOffsets d)).m_importOrigin = d.m_importOrigin) := by
  have hshowx : (showPcbImportOffsets d).m_DxfPcbXCoord =
      formatF (if d.m_originImportUnits ≠ 0 then d.m_importOrigin.x / 25.4
               else d.m_importOrigin.x) := by
    unfold showPcbImportOffsets
    by_cases h0 : d.m_originImportUnits = 0 <;> simp [h0, VECTOR2D.div]
  have hshowy : (showPcbImportOffsets d).m_DxfPcbYCoord =
      formatF (if d.m_originImportUnits ≠ 0 then d.m_importOrigin.y / 25.4
               else d.m_importOrigin.y) := by
    unfold showPcbImportOffsets
    by_cases h0 : d.m_originImportUnits = 0 <;> simp [h0, VECTOR2D.div]
  have hupd : ∀ d' : DIALOG_IMPORT_GFX Box, (updatePcbImportOffsets_mm d').m_importOrigin =
      (if d'.m_originImportUnits ≠ 0 then ⟨d'.m_DxfPcbXCoord * 25.4, d'.m_DxfPcbYCoord * 25.4⟩
       else ⟨d'.m_DxfPcbXCoord, d'.m_DxfPcbYCoord⟩) := by
    intro d'
    unfold updatePcbImportOffsets_mm
    by_cases h0 : d'.m_originImportUnits = 0 <;> simp [h0, VECTOR2D.mul]
  have hunits : (showPcbImportOffsets d).m_originImportUnits = d.m_originImportUnits := rfl
  refine ⟨hshowx, hshowy, hupd d, ?_, ?_, ?_⟩
  · rw [hupd, hunits, hshowx]
    by_cases h0 : d.m_originImportUnits = 0
    · simp only [h0, ne_eq, not_true_eq_false, if_false]
      exact formatF_close _
    · simp only [ne_eq, h0, not_false_eq_true, if_true]
      have hc := formatF_close (d.m_importOrigin.x / 25.4)
      rw [abs_le] at hc ⊢
      norm_num at hc ⊢
      constructor <;> linarith [hc.1, hc.2]
  · rw [hupd, hunits, hshowy]
    by_cases h0 : d.m_originImportUnits = 0
    · simp only [h0, ne_eq, not_true_eq_false, if_false]
      exact formatF_close _
    · simp only [ne_eq, h0, not_false_eq_true, if_true]
      have hc := formatF_close (d.m_importOrigin.y / 25.4)
      rw [abs_le] at hc ⊢
      norm_num at hc ⊢
      constructor <;> linarith [hc.1, hc.2]
  · intro hx hy
    rw [hupd, hunits, hshowx, hshowy, hx, hy]
    by_cases h0 : d.m_originImportUnits = 0
    · simp [h0]
    · simp only [ne_eq, h0, not_false_eq_true, if_true]
      cases hd : d.m_importOrigin with
      | mk x y =>
        simp only [VECTOR2D.mk.injEq]
        constructor <;> norm_num

/-- Evaluation of the amended C7 on the origin (25.4, 50.8) mm shown in inches:
(1.000000, 2.000000) is shown and (25.4, 50.8) mm is read back. -/
theorem importOrigin_unit_round_trip_up_to_display_witness :
    formatF ((25.4 : ℚ) / 25.4) = (25.4 : ℚ) / 25.4 ∧
    formatF ((50.8 : ℚ) / 25.4) = (50.8 : ℚ) / 25.4 ∧
    (updatePcbImportOffsets_mm (showPcbImportOffsets
      { sampleDialog with m_originImportUnits := 1,
                          m_importOrigin := ⟨25.4, 50.8⟩ })).m_importOrigin = ⟨25.4, 50.8⟩ := by
  have e1 : formatF ((25.4 : ℚ) / 25.4) = (25.4 : ℚ) / 25.4 := by
    rw [formatF_eq _ 1000000 (by norm_num) (by norm_num)]
    norm_num
  have e2 : formatF ((50.8 : ℚ) / 25.4) = (50.8 : ℚ) / 25.4 := by
    rw [formatF_eq _ 2000000 (by norm_num) (by norm_num)]
    norm_num
  exact ⟨e1, e2, (importOrigin_unit_round_trip_up_to_display
    { sampleDialog with m_originImportUnits := 1,
                        m_importOrigin := ⟨25.4, 50.8⟩ }).2.2.2.2.2 e1 e2⟩

/-! ## The OK button: validation and what the importer is given -/

/-- C3: when the filename text is empty, or it is not but the layer selection is negative,
`onOKClick` only shows one message box: it makes no call on the graphics importer, does not
ask for a plugin and does not call `event.Skip()`. -/
theorem onOKClick_validation_short_circuit (h : COLLABORATORS Box) (d : DIALOG_IMPORT_GFX Box)
    (hbad : d.m_textCtrlFileName = "" ∨
      (d.m_textCtrlFileName ≠ "" ∧ h.GetLayerSelection d.m_SelLayerBox < 0)) :
    (∀ c ∈ (onOKClick h d).2, c.onImporter = false) ∧
    (∀ ext, Call.GetPluginByExt ext ∉ (onOKClick h d).2) ∧
    Call.Skip ∉ (onOKClick h d).2 ∧
    (onOKClick h d).2 =
      [Call.wxMessageBox (if d.m_textCtrlFileName = "" then "Error: No DXF filename!"
                          else "Please, select a valid layer") none] := by
  have key : (onOKClick h d).2 =
      [Call.wxMessageBox (if d.m_textCtrlFileName = "" then "Error: No DXF filename!"
                          else "Please, select a valid layer") none] := by
    rcases hbad with hf | ⟨hf, hl⟩
    · simp [onOKClick, hf]
    · simp [onOKClick, hf, hl, updatePcbImportOffsets_mm]
  rw [key]
  refine ⟨?_, ?_, ?_, rfl⟩
  · intro c hc
    rw [List.mem_singleton] at hc
    subst hc
    rfl
  · intro ext hc
    rw [List.mem_singleton] at hc
    cases hc
  · intro hc
    rw [List.mem_singleton] at hc
    cases hc

/-- Evaluation of C3 on `sampleDialog` with the filename erased, and with no layer
selected. -/
theorem onOKClick_validation_short_circuit_witness :
    (({ sampleDialog with m_textCtrlFileName := "" } : DIALOG_IMPORT_GFX Int).m_textCtrlFileName
        = "" ∨
      (({ sampleDialog with m_textCtrlFileName := "" } : DIALOG_IMPORT_GFX Int).m_textCtrlFileName
        ≠ "" ∧ sampleHost.GetLayerSelection
          ({ sampleDialog with m_textCtrlFileName := "" } : DIALOG_IMPORT_GFX Int).m_SelLayerBox
          < 0)) ∧
    (onOKClick sampleHost { sampleDialog with m_textCtrlFileName := "" }).2 =
      [Call.wxMessageBox "Error: No DXF filename!" none] ∧
    (onOKClick sampleHost { sampleDialog with m_SelLayerBox := -1 }).2 =
      [Call.wxMessageBox "Please, select a valid layer" none] :=
  ⟨Or.inl rfl,
   (onOKClick_validation_short_circuit sampleHost { sampleDialog with m_textCtrlFileName := "" }
      (Or.inl rfl)).2.2.2,
   (onOKClick_validation_short_circuit sampleHost { sampleDialog with m_SelLayerBox := -1 }
      (Or.inr ⟨by decide, by decide⟩)).2.2.2⟩

/-- C4: with a filename, a valid layer and no plugin for the extension of the file,
`onOKClick` sets the layer of the importer, asks for the plugin and shows the "no plugin"
message; it calls nothing else on the importer (no `SetImportOffsetMM`, `SetLineWidthMM`,
`SetPlugin`, `Load` or `Import`), leaves the import scale as it was and does not call
`event.Skip()`. -/
theorem onOKClick_unknown_extension (h : COLLABORATORS Box) (d : DIALOG_IMPORT_GFX Box)
    (hf : d.m_textCtrlFileName ≠ "")
    (hl : 0 ≤ h.GetLayerSelection d.m_SelLayerBox)
    (hp : h.GetPluginByExt (h.GetExt d.m_textCtrlFileName) = none) :
    (onOKClick h d).2 =
      [Call.SetLayer (h.GetLayerSelection d.m_SelLayerBox),
       Call.GetPluginByExt (h.GetExt d.m_textCtrlFileName),
       Call.wxMessageBox "There is no plugin to handle this file type" none] ∧
    (∀ c ∈ (onOKClick h d).2, c.onImporter = true →
      c = Call.SetLayer (h.GetLayerSelection d.m_SelLayerBox)) ∧
    (∀ name, Call.Load name ∉ (onOKClick h d).2) ∧
    (∀ scale, Call.Import scale ∉ (onOKClick h d).2) ∧
    (onOKClick h d).1.m_scaleImport = d.m_scaleImport ∧
    Call.Skip ∉ (onOKClick h d).2 := by
  have hl2 : ¬ h.GetLayerSelection d.m_SelLayerBox < 0 := not_lt.mpr hl
  have key : onOKClick h d =
      ({ updatePcbImportOffsets_mm { d with m_filename := d.m_textCtrlFileName } with
          m_layer := h.GetLayerSelection d.m_SelLayerBox
          m_default_lineWidth := getPCBdefaultLineWidthMM d },
       [Call.SetLayer (h.GetLayerSelection d.m_SelLayerBox),
        Call.GetPluginByExt (h.GetExt d.m_textCtrlFileName),
        Call.wxMessageBox "There is no plugin to handle this file type" none]) := by
    simp [onOKClick, hf, hl2, hp, updatePcbImportOffsets_mm, getPCBdefaultLineWidthMM]
  rw [key]
  refine ⟨rfl, ?_, ?_, ?_, rfl, ?_⟩
  · intro c hc himp
    simp only [List.mem_cons, List.mem_singleton, List.not_mem_nil, or_false] at hc
    rcases hc with rfl | rfl | rfl
    · rfl
    · cases himp
    · cases himp
  · intro name hc
    simp at hc
  · intro scale hc
    simp at hc
  · intro hc
    simp at hc

/-- Evaluation of C4 on `sampleDialog` with the file "notes.txt". -/
theorem onOKClick_unknown_extension_witness :
    ({ sampleDialog with m_textCtrlFileName := "notes.txt" } :
        DIALOG_IMPORT_GFX Int).m_textCtrlFileName ≠ "" ∧
    sampleHost.GetPluginByExt (sampleHost.GetExt "notes.txt") = none ∧
    (onOKClick sampleHost { sampleDialog with m_textCtrlFileName := "notes.txt" }).2 =
      [Call.SetLayer 41, Call.GetPluginByExt "txt",
       Call.wxMessageBox "There is no plugin to handle this file type" none] :=
  ⟨by decide, by decide,
   (onOKClick_unknown_extension sampleHost { sampleDialog with m_textCtrlFileName := "notes.txt" }
      (by decide) (by decide) (by decide)).1⟩

/-- C10: with a filename, a valid layer and a plugin for the extension, `onOKClick` gives
the importer, before `Load`, the selected layer, the entered position in mm (times 25.4 when
the position unit index is not 0) and the entered line width in mm (times 25.4 / 1000 for index 1,
times 25.4 for index 2, unchanged otherwise); `Import` is called only when `Load` returned
true, then once, with the scale of the scale field. -/
theorem onOKClick_importer_gets_millimetres (h : COLLABORATORS Box) (d : DIALOG_IMPORT_GFX Box)
    (plugin : GRAPHICS_IMPORT_PLUGIN)
    (hf : d.m_textCtrlFileName ≠ "")
    (hl : 0 ≤ h.GetLayerSelection d.m_SelLayerBox)
    (hp : h.GetPluginByExt (h.GetExt d.m_textCtrlFileName) = some plugin) :
    (∃ rest, (onOKClick h d).2 =
        callsBeforeLoad h d plugin ++ Call.Load d.m_textCtrlFileName ::
          ((if h.Load (callsBeforeLoad h d plugin) d.m_textCtrlFileName
            then [Call.Import d.m_textCtrlImportScale] else []) ++ Call.GetMessages :: rest) ∧
        ∀ c ∈ rest, (∀ scale, c ≠ Call.Import scale) ∧ (∀ name, c ≠ Call.Load name)) ∧
    (∀ scale, Call.Import scale ∈ (onOKClick h d).2 →
      h.Load (callsBeforeLoad h d plugin) d.m_textCtrlFileName = true ∧
      scale = d.m_textCtrlImportScale) ∧
    ((onOKClick h d).2.filter (fun c => c matches Call.Import _)).length ≤ 1 ∧
    (onOKClick h d).1.m_scaleImport = d.m_textCtrlImportScale := by
  have hl2 : ¬ h.GetLayerSelection d.m_SelLayerBox < 0 := not_lt.mpr hl
  have hscale : (onOKClick h d).1.m_scaleImport = d.m_textCtrlImportScale := by
    simp [onOKClick, hf, hl2, hp, updatePcbImportOffsets_mm]
  have key : ∃ ms : String, (onOKClick h d).2 =
       callsBeforeLoad h d plugin ++ Call.Load d.m_textCtrlFileName ::
          ((if h.Load (callsBeforeLoad h d plugin) d.m_textCtrlFileName
            then [Call.Import d.m_textCtrlImportScale] else []) ++ Call.GetMessages ::
            ((if ms ≠ "" then [Call.wxMessageBox ms (some "Not Handled Items")] else [])
              ++ [Call.Skip])) := by
    refine ⟨h.GetMessages (callsBeforeLoad h d plugin ++ Call.Load d.m_textCtrlFileName ::
      (if h.Load (callsBeforeLoad h d plugin) d.m_textCtrlFileName
       then [Call.Import d.m_textCtrlImportScale] else [])), ?_⟩
    cases hL : h.Load (callsBeforeLoad h d plugin) d.m_textCtrlFileName
    · simp only [callsBeforeLoad, enteredOffsetMM, enteredLineWidthMM] at hL
      simp only [onOKClick, hf, hl2, hp, updatePcbImportOffsets_mm, getPCBdefaultLineWidthMM,
        callsBeforeLoad, enteredOffsetMM, enteredLineWidthMM, VECTOR2D.mul, hL, if_false,
        List.singleton_append, List.cons_append, List.nil_append, Bool.false_eq_true]
      split_ifs <;> rfl
    · simp only [callsBeforeLoad, enteredOffsetMM, enteredLineWidthMM] at hL
      simp only [onOKClick, hf, hl2, hp, updatePcbImportOffsets_mm, getPCBdefaultLineWidthMM,
        callsBeforeLoad, enteredOffsetMM, enteredLineWidthMM, VECTOR2D.mul, hL, if_false,
        List.singleton_append, List.cons_append, List.nil_append, if_true]
      split_ifs <;> rfl
  obtain ⟨ms, key⟩ := key
  have hrest : ∀ c ∈ (if ms ≠ "" then [Call.wxMessageBox ms (some "Not Handled Items")] else [])
      ++ [Call.Skip], (∀ scale, c ≠ Call.Import scale) ∧ (∀ name, c ≠ Call.Load name) := by
    intro c hc
    by_cases hm : ms = ""
    · simp only [hm, ne_eq, not_true_eq_false, if_false, List.nil_append,
        List.mem_singleton] at hc
      subst hc
      exact ⟨fun _ hx => (by cases hx), fun _ hx => (by cases hx)⟩
    · simp only [ne_eq, hm, not_false_eq_true, if_true, List.singleton_append, List.mem_cons,
        List.mem_singleton, List.not_mem_nil, or_false] at hc
      rcases hc with rfl | rfl <;> exact ⟨fun _ hx => (by cases hx), fun _ hx => (by cases hx)⟩
  refine ⟨⟨_, key, hrest⟩, ?_, ?_, hscale⟩
  · intro scale hmem
    rw [key] at hmem
    simp only [callsBeforeLoad, List.cons_append, List.nil_append, List.mem_cons,
      List.mem_append, reduceCtorEq, false_or] at hmem
    rcases hmem with hmem | hmem
    · cases hL : h.Load (callsBeforeLoad h d plugin) d.m_textCtrlFileName
      · simp only [callsBeforeLoad] at hL
        simp [hL] at hmem
      · simp only [callsBeforeLoad] at hL
        simp only [hL, if_true, List.mem_singleton, Call.Import.injEq] at hmem
        exact ⟨rfl, hmem⟩
    · rcases hmem with hmem | hmem
      · exact absurd rfl ((hrest _ (List.mem_append_left _ hmem)).1 scale)
      · cases hmem
  · rw [key]
    have hfr : ((if ms ≠ "" then [Call.wxMessageBox ms (some "Not Handled Items")] else [])
        ++ [Call.Skip]).filter (fun c => c matches Call.Import _) = [] := by
      by_cases hm : ms = "" <;> simp [hm, List.filter]
    cases hL : h.Load (callsBeforeLoad h d plugin) d.m_textCtrlFileName
    all_goals
      simp only [callsBeforeLoad, List.cons_append, List.nil_append, List.filter_cons,
        List.filter_append, List.filter_nil, hfr, if_true, if_false, Bool.false_eq_true,
        List.append_nil, List.length_cons, List.length_nil]
      omega

/-- Evaluation of C10 on `sampleDialog`: the file "outline.dxf" loads, the position (1, 2)
inches and the width of 1 inch reach the importer as (25.4, 50.8) mm and 25.4 mm. -/
theorem onOKClick_importer_gets_millimetres_witness :
    sampleDialog.m_textCtrlFileName ≠ "" ∧
    0 ≤ sampleHost.GetLayerSelection sampleDialog.m_SelLayerBox ∧
    sampleHost.GetPluginByExt (sampleHost.GetExt sampleDialog.m_textCtrlFileName)
      = some ⟨"AutoCAD DXF", "*.dxf"⟩ ∧
    callsBeforeLoad sampleHost sampleDialog ⟨"AutoCAD DXF", "*.dxf"⟩ =
      [Call.SetLayer 41, Call.GetPluginByExt "dxf", Call.SetImportOffsetMM ⟨25.4, 50.8⟩,
       Call.SetLineWidthMM 25.4, Call.SetPlugin ⟨"AutoCAD DXF", "*.dxf"⟩] ∧
    (onOKClick sampleHost sampleDialog).1.m_scaleImport = 3 :=
  ⟨by decide, by decide, by decide,
   by norm_num [callsBeforeLoad, enteredOffsetMM, enteredLineWidthMM, sampleDialog, sampleHost],
   (onOKClick_importer_gets_millimetres sampleHost sampleDialog ⟨"AutoCAD DXF", "*.dxf"⟩
      (by decide) (by decide) (by decide)).2.2.2⟩

/-! ## Handing over the imported items -/

theorem boardAdds_append (a b : List Call) : boardAdds (a ++ b) = boardAdds a ++ boardAdds b :=
  List.filterMap_append _ _ _

theorem moduleAdds_append (a b : List Call) :
    moduleAdds (a ++ b) = moduleAdds a ++ moduleAdds b :=
  List.filterMap_append _ _ _

theorem undoSaves_append (a b : List Call) : undoSaves (a ++ b) = undoSaves a ++ undoSaves b :=
  List.filterMap_append _ _ _

/-- What the loop of `InvokeDialogImportGfxBoard` does to the picklist, to the calls on
`board->Add` and to the picklists given to the undo list. -/
theorem boardLoop_effect (h : COLLABORATORS Box) (interactive : Bool) (list : List BOARD_ITEM)
    (st : LOCALS) :
    (list.foldl (boardLoopBody h interactive) st).picklist =
      st.picklist ++ list.map (fun item => ⟨some item, st.item_picker.status⟩) ∧
    boardAdds (list.foldl (boardLoopBody h interactive) st).calls = boardAdds st.calls ++ list ∧
    undoSaves (list.foldl (boardLoopBody h interactive) st).calls = undoSaves st.calls := by
  induction list generalizing st with
  | nil => simp
  | cons item rest ih =>
    simp only [List.foldl_cons, List.map_cons]
    obtain ⟨ih1, ih2, ih3⟩ := ih (boardLoopBody h interactive st item)
    rw [ih1, ih2, ih3]
    cases interactive
    · simp [boardLoopBody, boardAdds, undoSaves, List.filterMap_append]
    · cases hb : st.bboxInit <;>
        simp [boardLoopBody, blockPush, boardAdds, undoSaves, List.filterMap_append, hb]

/-- C1: when the dialog is accepted with a non-empty list of imported items,
`InvokeDialogImportGfxBoard` returns true, the items given to `board->Add` are the items of
the list in list order, one call each, the undo picklist holds one picker per item in the same
order, and `SaveCopyInUndoList` is called once, with that picklist and `UR_NEW`; so an item
occurs among the added items and in the picklist as often as in the list, once when the
items of the list are distinct. -/
theorem InvokeDialogImportGfxBoard_adds_each_item_once (h : COLLABORATORS Box)
    (dlg : MODAL_OUTCOME) (hok : dlg.ShowModal = wxID_OK) (hne : dlg.GetImportedItems ≠ []) :
    (InvokeDialogImportGfxBoard h dlg).ret = true ∧
    boardAdds (InvokeDialogImportGfxBoard h dlg).calls = dlg.GetImportedItems ∧
    (InvokeDialogImportGfxBoard h dlg).picklist =
      dlg.GetImportedItems.map (fun item => ⟨some item, .UR_NEW⟩) ∧
    pickedItems (InvokeDialogImportGfxBoard h dlg).picklist = dlg.GetImportedItems ∧
    undoSaves (InvokeDialogImportGfxBoard h dlg).calls =
      [((InvokeDialogImportGfxBoard h dlg).picklist, .UR_NEW)] ∧
    (∀ item, (boardAdds (InvokeDialogImportGfxBoard h dlg).calls).count item =
        dlg.GetImportedItems.count item ∧
      (pickedItems (InvokeDialogImportGfxBoard h dlg).picklist).count item =
        dlg.GetImportedItems.count item) ∧
    (dlg.GetImportedItems.Nodup → ∀ item ∈ dlg.GetImportedItems,
      (boardAdds (InvokeDialogImportGfxBoard h dlg).calls).count item = 1 ∧
      (pickedItems (InvokeDialogImportGfxBoard h dlg).picklist).count item = 1) := by
  have hret : (InvokeDialogImportGfxBoard h dlg).ret = true := by
    simp [InvokeDialogImportGfxBoard, hok, hne]
  have hrun : ∃ st0 : LOCALS, st0.picklist = [] ∧ st0.item_picker.status = .UR_NEW ∧
      boardAdds st0.calls = [] ∧ undoSaves st0.calls = [] ∧ ∃ tail : List Call,
      boardAdds tail = [] ∧ undoSaves tail = [] ∧
      (InvokeDialogImportGfxBoard h dlg).picklist =
        (dlg.GetImportedItems.foldl (boardLoopBody h dlg.IsPlacementInteractive) st0).picklist ∧
      (InvokeDialogImportGfxBoard h dlg).calls =
        (dlg.GetImportedItems.foldl (boardLoopBody h dlg.IsPlacementInteractive) st0).calls ++
          Call.SaveCopyInUndoList (InvokeDialogImportGfxBoard h dlg).picklist .UR_NEW :: tail := by
    simp only [InvokeDialogImportGfxBoard, hok, ne_eq, not_true_eq_false, if_false, hne]
    cases dlg.IsPlacementInteractive
    · exact ⟨LOCALS.init [], rfl, rfl, rfl, rfl, [Call.OnModify], rfl, rfl, rfl, by
        simp [LOCALS.init]⟩
    · exact ⟨LOCALS.init [Call.HandleBlockBegin], rfl, rfl, rfl, rfl,
        Call.OnModify :: finishBlockMove h
          { dlg.GetImportedItems.foldl (boardLoopBody h true)
              (LOCALS.init [Call.HandleBlockBegin]) with calls := [] },
        rfl, rfl, rfl, by simp [LOCALS.init, finishBlockMove]⟩
  obtain ⟨st0, hp0, hs0, ha0, hu0, tail, hat, hut, hpl, hcalls⟩ := hrun
  obtain ⟨e1, e2, e3⟩ := boardLoop_effect h dlg.IsPlacementInteractive dlg.GetImportedItems st0
  have hpick : (InvokeDialogImportGfxBoard h dlg).picklist =
      dlg.GetImportedItems.map (fun item => ⟨some item, .UR_NEW⟩) := by
    rw [hpl, e1, hp0, hs0, List.nil_append]
  have hadds : boardAdds (InvokeDialogImportGfxBoard h dlg).calls = dlg.GetImportedItems := by
    rw [hcalls, boardAdds_append, e2, ha0, List.nil_append]
    show dlg.GetImportedItems ++ boardAdds tail = _
    rw [hat, List.append_nil]
  have hsaves : undoSaves (InvokeDialogImportGfxBoard h dlg).calls =
      [((InvokeDialogImportGfxBoard h dlg).picklist, .UR_NEW)] := by
    rw [hcalls, undoSaves_append, e3, hu0, List.nil_append]
    show _ :: undoSaves tail = _
    rw [hut]
  have hitems : pickedItems (InvokeDialogImportGfxBoard h dlg).picklist =
      dlg.GetImportedItems := by
    rw [hpick]; simp [pickedItems, List.filterMap_map, Function.comp_def]
  have hcount : ∀ item, (boardAdds (InvokeDialogImportGfxBoard h dlg).calls).count item =
        dlg.GetImportedItems.count item ∧
      (pickedItems (InvokeDialogImportGfxBoard h dlg).picklist).count item =
        dlg.GetImportedItems.count item := by
    intro item
    rw [hadds, hitems]
    exact ⟨rfl, rfl⟩
  refine ⟨hret, hadds, hpick, hitems, hsaves, hcount, ?_⟩
  intro hnd item hmem
  rw [(hcount item).1, (hcount item).2]
  exact ⟨List.count_eq_one_of_mem hnd hmem, List.count_eq_one_of_mem hnd hmem⟩

/-- Evaluation of C1 on `sampleOutcome`, and on the same list with absolute placement. -/
theorem InvokeDialogImportGfxBoard_adds_each_item_once_witness :
    sampleOutcome.ShowModal = wxID_OK ∧ sampleOutcome.GetImportedItems ≠ [] ∧
    boardAdds (InvokeDialogImportGfxBoard sampleHost sampleOutcome).calls = [7, 3, 9] ∧
    pickedItems (InvokeDialogImportGfxBoard sampleHost sampleOutcome).picklist = [7, 3, 9] ∧
    boardAdds (InvokeDialogImportGfxBoard sampleHost
      { sampleOutcome with IsPlacementInteractive := false }).calls = [7, 3, 9] ∧
    undoSaves (InvokeDialogImportGfxBoard sampleHost
      { sampleOutcome with IsPlacementInteractive := false }).calls =
      [([⟨some 7, .UR_NEW⟩, ⟨some 3, .UR_NEW⟩, ⟨some 9, .UR_NEW⟩], .UR_NEW)] :=
  ⟨rfl, by decide,
   (InvokeDialogImportGfxBoard_adds_each_item_once sampleHost sampleOutcome rfl (by decide)).2.1,
   (InvokeDialogImportGfxBoard_adds_each_item_once sampleHost sampleOutcome rfl
      (by decide)).2.2.2.1,
   (InvokeDialogImportGfxBoard_adds_each_item_once sampleHost
      { sampleOutcome with IsPlacementInteractive := false } rfl (by decide)).2.1,
   by decide⟩

/-- What the loop of `InvokeDialogImportGfxModule` does: it only appends calls, among them one
`aModule->Add` per item in list order and no call that saves in the undo list, and it leaves
the picklist alone. -/
theorem moduleLoop_effect (h : COLLABORATORS Box) (interactive : Bool) (list : List BOARD_ITEM)
    (st : LOCALS) :
    (list.foldl (moduleLoopBody h interactive) st).picklist = st.picklist ∧
    ∃ ext, (list.foldl (moduleLoopBody h interactive) st).calls = st.calls ++ ext ∧
      moduleAdds ext = list ∧ undoSaves ext = [] ∧ itemUndoSaves ext = [] := by
  induction list generalizing st with
  | nil => exact ⟨rfl, [], by simp, rfl, rfl, rfl⟩
  | cons item rest ih =>
    simp only [List.foldl_cons]
    obtain ⟨ih1, ext, ih2, ih3, ih4, ih5⟩ := ih (moduleLoopBody h interactive st item)
    rw [ih1, ih2]
    cases interactive
    · refine ⟨rfl, Call.MODULE_Add item :: ext, by simp [moduleLoopBody], ?_, ?_, ?_⟩
      · show item :: moduleAdds ext = _
        rw [ih3]
      · exact ih4
      · exact ih5
    · refine ⟨?_, Call.MODULE_Add item :: Call.SetFlags item .IS_MOVED ::
          Call.blockitemsList_PushItem ⟨some item, st.item_picker.status⟩ :: ext, ?_, ?_, ?_, ?_⟩
      · cases hb : st.bboxInit <;> simp [moduleLoopBody, blockPush, hb]
      · cases hb : st.bboxInit <;> simp [moduleLoopBody, blockPush, hb]
      · show item :: moduleAdds ext = _
        rw [ih3]
      · exact ih4
      · exact ih5

/-- C2, the claim as stated, fails: with the footprint 1 and the accepted dialog
`sampleOutcome` (items 7, 3, 9), under interactive and under absolute placement, each item is
given once to `aModule->Add` but the undo picklist is empty at the return, so it is not true
that each item is once in the undo picklist. -/
theorem InvokeDialogImportGfxModule_picklist_counterexample :
    moduleAdds (InvokeDialogImportGfxModule sampleHost (some 1) sampleOutcome).calls = [7, 3, 9] ∧
    (InvokeDialogImportGfxModule sampleHost (some 1) sampleOutcome).picklist = [] ∧
    (InvokeDialogImportGfxModule sampleHost (some 1)
      { sampleOutcome with IsPlacementInteractive := false }).picklist = [] ∧
    ¬ (∀ item ∈ sampleOutcome.GetImportedItems,
        (pickedItems
          (InvokeDialogImportGfxModule sampleHost (some 1) sampleOutcome).picklist).count item
          = 1) ∧
    ¬ (∀ item ∈ sampleOutcome.GetImportedItems,
        (pickedItems
          (InvokeDialogImportGfxModule sampleHost (some 1)
            { sampleOutcome with IsPlacementInteractive := false }).picklist).count item
          = 1) := by
  decide

theorem itemUndoSaves_append (a b : List Call) :
    itemUndoSaves (a ++ b) = itemUndoSaves a ++ itemUndoSaves b :=
  List.filterMap_append _ _ _

/-- C2, amended: when the footprint is not null and the dialog is accepted with a non-empty
list of imported items, `InvokeDialogImportGfxModule` returns true and gives the items of the
list to `aModule->Add` in list order, one call each, under interactive and absolute placement
alike; no item is pushed on the undo picklist, which is empty at the return and is given to
no call of `SaveCopyInUndoList`: what is saved for undo is the footprint, by the one call
`SaveCopyInUndoList( aModule, UR_CHANGED )` made before the first `Add`. -/
theorem InvokeDialogImportGfxModule_adds_each_item_once (h : COLLABORATORS Box) (aModule : Nat)
    (dlg : MODAL_OUTCOME) (hok : dlg.ShowModal = wxID_OK) (hne : dlg.GetImportedItems ≠ []) :
    (InvokeDialogImportGfxModule h (some aModule) dlg).ret = true ∧
    moduleAdds (InvokeDialogImportGfxModule h (some aModule) dlg).calls = dlg.GetImportedItems ∧
    (∀ item, (moduleAdds (InvokeDialogImportGfxModule h (some aModule) dlg).calls).count item =
      dlg.GetImportedItems.count item) ∧
    (dlg.GetImportedItems.Nodup → ∀ item ∈ dlg.GetImportedItems,
      (moduleAdds (InvokeDialogImportGfxModule h (some aModule) dlg).calls).count item = 1) ∧
    (InvokeDialogImportGfxModule h (some aModule) dlg).picklist = [] ∧
    undoSaves (InvokeDialogImportGfxModule h (some aModule) dlg).calls = [] ∧
    itemUndoSaves (InvokeDialogImportGfxModule h (some aModule) dlg).calls = [.UR_CHANGED] ∧
    ∃ rest, (InvokeDialogImportGfxModule h (some aModule) dlg).calls =
        Call.SaveCopyInUndoList_item .UR_CHANGED :: rest ∧
      moduleAdds rest = dlg.GetImportedItems := by
  have hret : (InvokeDialogImportGfxModule h (some aModule) dlg).ret = true := by
    simp [InvokeDialogImportGfxModule, hok, hne]
  have hrun : ∃ before : List Call, moduleAdds before = [] ∧ undoSaves before = [] ∧
      itemUndoSaves before = [] ∧ ∃ tail : List Call,
      moduleAdds tail = [] ∧ undoSaves tail = [] ∧ itemUndoSaves tail = [] ∧
      (InvokeDialogImportGfxModule h (some aModule) dlg).picklist =
        (dlg.GetImportedItems.foldl (moduleLoopBody h dlg.IsPlacementInteractive)
          (LOCALS.init (Call.SaveCopyInUndoList_item .UR_CHANGED :: before))).picklist ∧
      (InvokeDialogImportGfxModule h (some aModule) dlg).calls =
        (dlg.GetImportedItems.foldl (moduleLoopBody h dlg.IsPlacementInteractive)
          (LOCALS.init (Call.SaveCopyInUndoList_item .UR_CHANGED :: before))).calls ++ tail := by
    simp only [InvokeDialogImportGfxModule, hok, ne_eq, not_true_eq_false, if_false, hne]
    cases dlg.IsPlacementInteractive
    · exact ⟨[], rfl, rfl, rfl, [Call.OnModify], rfl, rfl, rfl, rfl, by simp [LOCALS.init]⟩
    · exact ⟨[Call.HandleBlockBegin], rfl, rfl, rfl,
        Call.OnModify :: finishBlockMove h
          { dlg.GetImportedItems.foldl (moduleLoopBody h true)
              (LOCALS.init [Call.SaveCopyInUndoList_item .UR_CHANGED, Call.HandleBlockBegin])
            with calls := [] },
        rfl, rfl, rfl, rfl, by simp [LOCALS.init, finishBlockMove]⟩
  obtain ⟨before, hb1, hb2, hb3, tail, ht1, ht2, ht3, hpl, hcalls⟩ := hrun
  obtain ⟨e1, ext, e2, e3, e4, e5⟩ :=
    moduleLoop_effect h dlg.IsPlacementInteractive dlg.GetImportedItems
      (LOCALS.init (Call.SaveCopyInUndoList_item .UR_CHANGED :: before))
  have hcalls2 : (InvokeDialogImportGfxModule h (some aModule) dlg).calls =
      Call.SaveCopyInUndoList_item .UR_CHANGED :: (before ++ ext ++ tail) := by
    rw [hcalls, e2]; simp [LOCALS.init]
  have hrest : moduleAdds (before ++ ext ++ tail) = dlg.GetImportedItems := by
    rw [moduleAdds_append, moduleAdds_append, hb1, e3, ht1, List.nil_append, List.append_nil]
  have hadds : moduleAdds (InvokeDialogImportGfxModule h (some aModule) dlg).calls =
      dlg.GetImportedItems := by
    rw [hcalls2]; exact hrest
  refine ⟨hret, hadds, ?_, ?_, ?_, ?_, ?_, _, hcalls2, hrest⟩
  · intro item; rw [hadds]
  · intro hnd item hmem
    rw [hadds]
    exact List.count_eq_one_of_mem hnd hmem
  · rw [hpl, e1]; rfl
  · rw [hcalls2]
    show undoSaves (before ++ ext ++ tail) = []
    rw [undoSaves_append, undoSaves_append, hb2, e4, ht2]; rfl
  · rw [hcalls2]
    show UNDO_REDO_T.UR_CHANGED :: itemUndoSaves (before ++ ext ++ tail) = _
    rw [itemUndoSaves_append, itemUndoSaves_append, hb3, e5, ht3]; rfl

/-- Evaluation of the amended C2 on the footprint 1 and `sampleOutcome`. -/
theorem InvokeDialogImportGfxModule_adds_each_item_once_witness :
    sampleOutcome.ShowModal = wxID_OK ∧ sampleOutcome.GetImportedItems ≠ [] ∧
    moduleAdds (InvokeDialogImportGfxModule sampleHost (some 1) sampleOutcome).calls = [7, 3, 9] ∧
    itemUndoSaves (InvokeDialogImportGfxModule sampleHost (some 1) sampleOutcome).calls
      = [.UR_CHANGED] :=
  ⟨rfl, by decide,
   (InvokeDialogImportGfxModule_adds_each_item_once sampleHost 1 sampleOutcome rfl
      (by decide)).2.1,
   (InvokeDialogImportGfxModule_adds_each_item_once sampleHost 1 sampleOutcome rfl
      (by decide)).2.2.2.2.2.2.1⟩

/-! ## Defaults and persistence -/

/-- Each of the eight keys of the dialog is read back from `writtenStore` as written. -/
theorem writtenStore_lookup (cfg : wxConfigBase) (layer : Int) (interactive : Bool)
    (file : String) (posUnits : Int) (x y width : ℚ) (widthUnits : Int) :
    (writtenStore cfg layer interactive file posUnits x y width widthUnits).lookup
        IMPORT_GFX_LAYER_OPTION_KEY = some (wxConfigValue.long layer) ∧
    (writtenStore cfg layer interactive file posUnits x y width widthUnits).lookup
        IMPORT_GFX_PLACEMENT_INTERACTIVE_KEY = some (wxConfigValue.bool interactive) ∧
    (writtenStore cfg layer interactive file posUnits x y width widthUnits).lookup
        IMPORT_GFX_LAST_FILE_KEY = some (wxConfigValue.str file) ∧
    (writtenStore cfg layer interactive file posUnits x y width widthUnits).lookup
        IMPORT_GFX_POSITION_UNITS_KEY = some (wxConfigValue.long posUnits) ∧
    (writtenStore cfg layer interactive file posUnits x y width widthUnits).lookup
        IMPORT_GFX_POSITION_X_KEY = some (wxConfigValue.dbl x) ∧
    (writtenStore cfg layer interactive file posUnits x y width widthUnits).lookup
        IMPORT_GFX_POSITION_Y_KEY = some (wxConfigValue.dbl y) ∧
    (writtenStore cfg layer interactive file posUnits x y width widthUnits).lookup
        IMPORT_GFX_LINEWIDTH_KEY = some (wxConfigValue.dbl width) ∧
    (writtenStore cfg layer interactive file posUnits x y width widthUnits).lookup
        IMPORT_GFX_LINEWIDTH_UNITS_KEY = some (wxConfigValue.long widthUnits) := by
  simp [writtenStore, wxConfigBase.Write, List.lookup, IMPORT_GFX_LAYER_OPTION_KEY,
    IMPORT_GFX_LINEWIDTH_UNITS_KEY, IMPORT_GFX_LINEWIDTH_KEY, IMPORT_GFX_POSITION_Y_KEY,
    IMPORT_GFX_POSITION_X_KEY, IMPORT_GFX_POSITION_UNITS_KEY, IMPORT_GFX_LAST_FILE_KEY,
    IMPORT_GFX_PLACEMENT_INTERACTIVE_KEY]

/-- The configuration store the destructor leaves, when there is one: the store it found
with the eight values written, the line-width-units value being the truncated line width. -/
theorem destroy_config (h : COLLABORATORS Box) (d : DIALOG_IMPORT_GFX Box) (cfg : wxConfigBase)
    (hcfg : d.m_config = some cfg) :
    (DIALOG_IMPORT_GFX.destroy h d).m_config = some
      (writtenStore cfg (h.GetLayerSelection d.m_SelLayerBox) d.m_placementInteractive
        d.m_filename d.m_originImportUnits (enteredOffsetMM d).x (enteredOffsetMM d).y d.m_default_lineWidth
        (doubleToInt (getPCBdefaultLineWidthMM d))) := by
  have ho : (updatePcbImportOffsets_mm d).m_importOrigin = enteredOffsetMM d := by
    unfold updatePcbImportOffsets_mm enteredOffsetMM
    by_cases h0 : d.m_originImportUnits = 0 <;> simp [h0, VECTOR2D.mul]
  have hm : (updatePcbImportOffsets_mm d).m_config = some cfg := hcfg
  unfold DIALOG_IMPORT_GFX.destroy
  simp only [hm, ho]
  rfl

/-- What the constructor loads: each member from its key, with the default of the `Read`
call, the line width unit index always 0, and `Dwgs_User` for a layer that the layer selector
does not take. -/
theorem create_loaded (h : COLLABORATORS Box) (s : SESSION) (cfg : wxConfigBase) (box : Box) :
    (DIALOG_IMPORT_GFX.create h s (some cfg) box).m_layer =
      (if (h.SetLayerSelection box (cfg.ReadLong IMPORT_GFX_LAYER_OPTION_KEY h.Dwgs_User)).2 < 0
       then h.Dwgs_User else cfg.ReadLong IMPORT_GFX_LAYER_OPTION_KEY h.Dwgs_User) ∧
    (DIALOG_IMPORT_GFX.create h s (some cfg) box).m_placementInteractive =
      cfg.ReadBool IMPORT_GFX_PLACEMENT_INTERACTIVE_KEY true ∧
    (DIALOG_IMPORT_GFX.create h s (some cfg) box).m_filename =
      cfg.ReadString IMPORT_GFX_LAST_FILE_KEY "" ∧
    (DIALOG_IMPORT_GFX.create h s (some cfg) box).m_default_lineWidth =
      cfg.ReadDouble IMPORT_GFX_LINEWIDTH_KEY 0.2 ∧
    (DIALOG_IMPORT_GFX.create h s (some cfg) box).m_originImportUnits =
      cfg.ReadLong IMPORT_GFX_POSITION_UNITS_KEY 0 ∧
    (DIALOG_IMPORT_GFX.create h s (some cfg) box).m_importOrigin =
      ⟨cfg.ReadDouble IMPORT_GFX_POSITION_X_KEY 0.0, cfg.ReadDouble IMPORT_GFX_POSITION_Y_KEY 0.0⟩ ∧
    (DIALOG_IMPORT_GFX.create h s (some cfg) box).m_lineWidthImportUnits = 0 := by
  by_cases hsel :
      (h.SetLayerSelection box (cfg.ReadLong IMPORT_GFX_LAYER_OPTION_KEY h.Dwgs_User)).2 < 0
  · simp [DIALOG_IMPORT_GFX.create, hsel, showPCBdefaultLineWidth, showPcbImportOffsets]
  · simp [DIALOG_IMPORT_GFX.create, hsel, showPCBdefaultLineWidth, showPcbImportOffsets]

/-- What the constructor keeps of the session when there is no configuration store. -/
theorem create_without_config (h : COLLABORATORS Box) (s : SESSION) (box : Box) :
    (DIALOG_IMPORT_GFX.create h s none box).m_layer =
      (if (h.SetLayerSelection box s.m_layer).2 < 0 then h.Dwgs_User else s.m_layer) ∧
    (DIALOG_IMPORT_GFX.create h s none box).m_placementInteractive = s.m_placementInteractive ∧
    (DIALOG_IMPORT_GFX.create h s none box).m_filename = s.m_filename ∧
    (DIALOG_IMPORT_GFX.create h s none box).m_default_lineWidth = 0.2 ∧
    (DIALOG_IMPORT_GFX.create h s none box).m_originImportUnits = 0 ∧
    (DIALOG_IMPORT_GFX.create h s none box).m_importOrigin = ⟨0.0, 0.0⟩ ∧
    (DIALOG_IMPORT_GFX.create h s none box).m_lineWidthImportUnits = 0 := by
  by_cases hsel : (h.SetLayerSelection box s.m_layer).2 < 0
  · simp [DIALOG_IMPORT_GFX.create, hsel, showPCBdefaultLineWidth, showPcbImportOffsets]
  · simp [DIALOG_IMPORT_GFX.create, hsel, showPCBdefaultLineWidth, showPcbImportOffsets]

/-- C5: a dialog constructed in a fresh session on a configuration store with none of
the import keys (or with no store at all) has the layer `Dwgs_User`, interactive placement, the
origin (0, 0) mm, the line width 0.2 mm, both unit indices 0 and no filename; and in any
session, on any store, when the layer selector does not take the loaded layer the layer of
the dialog is `Dwgs_User`. -/
theorem create_default_state (h : COLLABORATORS Box) (cfg : wxConfigBase) (box : Box)
    (hkeys : ∀ key ∈ importKeys, cfg.lookup key = none) :
    ((DIALOG_IMPORT_GFX.create h (SESSION.fresh h.Dwgs_User) (some cfg) box).m_layer
        = h.Dwgs_User ∧
      (DIALOG_IMPORT_GFX.create h (SESSION.fresh h.Dwgs_User) (some cfg) box).m_placementInteractive
        = true ∧
      (DIALOG_IMPORT_GFX.create h (SESSION.fresh h.Dwgs_User) (some cfg) box).m_importOrigin
        = ⟨0.0, 0.0⟩ ∧
      (DIALOG_IMPORT_GFX.create h (SESSION.fresh h.Dwgs_User) (some cfg) box).m_default_lineWidth
        = 0.2 ∧
      (DIALOG_IMPORT_GFX.create h (SESSION.fresh h.Dwgs_User) (some cfg) box).m_originImportUnits
        = 0 ∧
      (DIALOG_IMPORT_GFX.create h (SESSION.fresh h.Dwgs_User) (some cfg) box).m_lineWidthImportUnits
        = 0 ∧
      (DIALOG_IMPORT_GFX.create h (SESSION.fresh h.Dwgs_User) (some cfg) box).m_filename = "") ∧
    ((DIALOG_IMPORT_GFX.create h (SESSION.fresh h.Dwgs_User) none box).m_layer = h.Dwgs_User ∧
      (DIALOG_IMPORT_GFX.create h (SESSION.fresh h.Dwgs_User) none box).m_placementInteractive
        = true ∧
      (DIALOG_IMPORT_GFX.create h (SESSION.fresh h.Dwgs_User) none box).m_importOrigin
        = ⟨0.0, 0.0⟩ ∧
      (DIALOG_IMPORT_GFX.create h (SESSION.fresh h.Dwgs_User) none box).m_default_lineWidth
        = 0.2 ∧
      (DIALOG_IMPORT_GFX.create h (SESSION.fresh h.Dwgs_User) none box).m_originImportUnits = 0 ∧
      (DIALOG_IMPORT_GFX.create h (SESSION.fresh h.Dwgs_User) none box).m_lineWidthImportUnits
        = 0 ∧
      (DIALOG_IMPORT_GFX.create h (SESSION.fresh h.Dwgs_User) none box).m_filename = "") ∧
    (∀ (s : SESSION) (store : wxConfigBase) (b : Box),
      (h.SetLayerSelection b (store.ReadLong IMPORT_GFX_LAYER_OPTION_KEY h.Dwgs_User)).2 < 0 →
      (DIALOG_IMPORT_GFX.create h s (some store) b).m_layer = h.Dwgs_User) ∧
    (∀ (s : SESSION) (b : Box), (h.SetLayerSelection b s.m_layer).2 < 0 →
      (DIALOG_IMPORT_GFX.create h s none b).m_layer = h.Dwgs_User) := by
  have hk : ∀ key ∈ importKeys, cfg.lookup key = none := hkeys
  simp only [importKeys, List.mem_cons, List.mem_singleton, List.not_mem_nil, or_false,
    forall_eq_or_imp, forall_eq] at hk
  obtain ⟨k1, k2, k3, k4, k5, k6, _, k8⟩ := hk
  obtain ⟨l1, l2, l3, l4, l5, l6, l7⟩ := create_loaded h (SESSION.fresh h.Dwgs_User) cfg box
  obtain ⟨n1, n2, n3, n4, n5, n6, n7⟩ := create_without_config h (SESSION.fresh h.Dwgs_User) box
  refine ⟨⟨?_, ?_, ?_, ?_, ?_, l7, ?_⟩, ⟨?_, n2, n6, n4, n5, n7, n3⟩, ?_, ?_⟩
  · rw [l1]; simp [wxConfigBase.ReadLong, k1]
  · rw [l2]; simp [wxConfigBase.ReadBool, k2]
  · rw [l6]; simp [wxConfigBase.ReadDouble, k5, k6]
  · rw [l4]; simp [wxConfigBase.ReadDouble, k8]
  · rw [l5]; simp [wxConfigBase.ReadLong, k4]
  · rw [l3]; simp [wxConfigBase.ReadString, k3]
  · rw [n1]; simp [SESSION.fresh]
  · intro s store b hsel
    rw [(create_loaded h s store b).1, if_pos hsel]
  · intro s b hsel
    rw [(create_without_config h s b).1, if_pos hsel]

/-- Evaluation of C5 with the collaborators `sampleHost`, on a store that holds only a key of
another dialog; and the fallback from the stored layer 5, which the selector does not offer. -/
theorem create_default_state_witness :
    (∀ key ∈ importKeys,
      List.lookup key [("PcbFrameShowGrid", wxConfigValue.bool true)] = none) ∧
    (DIALOG_IMPORT_GFX.create sampleHost (SESSION.fresh 40)
      (some [("PcbFrameShowGrid", wxConfigValue.bool true)]) (-1)).m_layer = 40 ∧
    (DIALOG_IMPORT_GFX.create sampleHost (SESSION.fresh 40)
      (some [("PcbFrameShowGrid", wxConfigValue.bool true)]) (-1)).m_default_lineWidth = 0.2 ∧
    (DIALOG_IMPORT_GFX.create sampleHost (SESSION.fresh 40)
      (some [(IMPORT_GFX_LAYER_OPTION_KEY, wxConfigValue.long 5)]) (-1)).m_layer = 40 :=
  ⟨by decide,
   (create_default_state sampleHost [("PcbFrameShowGrid", wxConfigValue.bool true)] (-1)
      (by decide)).1.1,
   (create_default_state sampleHost [("PcbFrameShowGrid", wxConfigValue.bool true)] (-1)
      (by decide)).1.2.2.2.1,
   (create_default_state sampleHost [("PcbFrameShowGrid", wxConfigValue.bool true)] (-1)
      (by decide)).2.2.1 (SESSION.fresh 40) [(IMPORT_GFX_LAYER_OPTION_KEY, wxConfigValue.long 5)]
      (-1) (by decide)⟩

/-- C8 fails on the code: the destructor assigns the line width in mm, truncated, to the
line width unit index and writes that under the line-width-units key, and the constructor
never reads the key. On `sampleDialog` (unit index 2, inch, width field 1) the value written
is 25, not 2, and the next dialog starts with unit index 0; for every dialog with a store the
value written is the truncated width, and every constructed dialog has unit index 0. -/
theorem lineWidthUnits_not_persisted :
    sampleDialog.m_lineWidthImportUnits = 2 ∧
    (DIALOG_IMPORT_GFX.destroy sampleHost sampleDialog).m_config.map
      (fun store => store.lookup IMPORT_GFX_LINEWIDTH_UNITS_KEY)
      = some (some (wxConfigValue.long 25)) ∧
    (DIALOG_IMPORT_GFX.create sampleHost (DIALOG_IMPORT_GFX.destroy sampleHost sampleDialog).session
      (DIALOG_IMPORT_GFX.destroy sampleHost sampleDialog).m_config 41).m_lineWidthImportUnits
      = 0 ∧
    (∀ (h : COLLABORATORS Box) (d : DIALOG_IMPORT_GFX Box) (cfg : wxConfigBase),
      (DIALOG_IMPORT_GFX.destroy h { d with m_config := some cfg }).m_config.map
        (fun store => store.lookup IMPORT_GFX_LINEWIDTH_UNITS_KEY)
        = some (some (wxConfigValue.long (doubleToInt (getPCBdefaultLineWidthMM d))))) ∧
    (∀ (h : COLLABORATORS Box) (s : SESSION) (config : Option wxConfigBase) (box : Box),
      (DIALOG_IMPORT_GFX.create h s config box).m_lineWidthImportUnits = 0) := by
  have hgen : ∀ (h : COLLABORATORS Box) (d : DIALOG_IMPORT_GFX Box) (cfg : wxConfigBase),
      (DIALOG_IMPORT_GFX.destroy h { d with m_config := some cfg }).m_config.map
        (fun store => store.lookup IMPORT_GFX_LINEWIDTH_UNITS_KEY)
        = some (some (wxConfigValue.long (doubleToInt (getPCBdefaultLineWidthMM d)))) := by
    intro h d cfg
    rw [destroy_config h { d with m_config := some cfg } cfg rfl]
    simp only [Option.map_some']
    rw [(writtenStore_lookup _ _ _ _ _ _ _ _ _).2.2.2.2.2.2.2]
    rfl
  have hcreate : ∀ (B : Type) (h : COLLABORATORS B) (s : SESSION) (config : Option wxConfigBase)
      (box : B), (DIALOG_IMPORT_GFX.create h s config box).m_lineWidthImportUnits = 0 := by
    intro B h s config box
    cases config with
    | none => exact (create_without_config h s box).2.2.2.2.2.2
    | some cfg => exact (create_loaded h s cfg box).2.2.2.2.2.2
  refine ⟨rfl, ?_, hcreate _ _ _ _ _, hgen, hcreate Box⟩
  rw [destroy_config sampleHost sampleDialog [] rfl]
  simp only [Option.map_some']
  rw [(writtenStore_lookup _ _ _ _ _ _ _ _ _).2.2.2.2.2.2.2]
  norm_num [getPCBdefaultLineWidthMM, sampleDialog, doubleToInt]
  rfl

/-- C9: for a dialog with a configuration store, the destructor writes the selected layer,
the placement mode, the file path, the position unit index, the position X and Y in mm (the
entered value times 25.4 when the position unit index is not 0, the entered value otherwise)
and the line width member, each under its key; a dialog constructed afterwards on that store,
in any session, loads exactly these values into `m_placementInteractive`, `m_filename`,
`m_originImportUnits`, `m_importOrigin` and `m_default_lineWidth`, and into `m_layer` when the
layer selector takes that layer. -/
theorem destroy_create_round_trip (h : COLLABORATORS Box) (d : DIALOG_IMPORT_GFX Box)
    (cfg : wxConfigBase) (hcfg : d.m_config = some cfg) (s : SESSION) (box : Box) :
    ∃ store, (DIALOG_IMPORT_GFX.destroy h d).m_config = some store ∧
      store.lookup IMPORT_GFX_LAYER_OPTION_KEY
        = some (wxConfigValue.long (h.GetLayerSelection d.m_SelLayerBox)) ∧
      store.lookup IMPORT_GFX_PLACEMENT_INTERACTIVE_KEY
        = some (wxConfigValue.bool d.m_placementInteractive) ∧
      store.lookup IMPORT_GFX_LAST_FILE_KEY = some (wxConfigValue.str d.m_filename) ∧
      store.lookup IMPORT_GFX_POSITION_UNITS_KEY
        = some (wxConfigValue.long d.m_originImportUnits) ∧
      store.lookup IMPORT_GFX_POSITION_X_KEY
        = some (wxConfigValue.dbl
            (if d.m_originImportUnits ≠ 0 then d.m_DxfPcbXCoord * 25.4 else d.m_DxfPcbXCoord)) ∧
      store.lookup IMPORT_GFX_POSITION_Y_KEY
        = some (wxConfigValue.dbl
            (if d.m_originImportUnits ≠ 0 then d.m_DxfPcbYCoord * 25.4 else d.m_DxfPcbYCoord)) ∧
      store.lookup IMPORT_GFX_LINEWIDTH_KEY = some (wxConfigValue.dbl d.m_default_lineWidth) ∧
      (DIALOG_IMPORT_GFX.create h s (some store) box).m_placementInteractive
        = d.m_placementInteractive ∧
      (DIALOG_IMPORT_GFX.create h s (some store) box).m_filename = d.m_filename ∧
      (DIALOG_IMPORT_GFX.create h s (some store) box).m_originImportUnits
        = d.m_originImportUnits ∧
      (DIALOG_IMPORT_GFX.create h s (some store) box).m_importOrigin =
        ⟨if d.m_originImportUnits ≠ 0 then d.m_DxfPcbXCoord * 25.4 else d.m_DxfPcbXCoord,
         if d.m_originImportUnits ≠ 0 then d.m_DxfPcbYCoord * 25.4 else d.m_DxfPcbYCoord⟩ ∧
      (DIALOG_IMPORT_GFX.create h s (some store) box).m_default_lineWidth
        = d.m_default_lineWidth ∧
      (0 ≤ (h.SetLayerSelection box (h.GetLayerSelection d.m_SelLayerBox)).2 →
        (DIALOG_IMPORT_GFX.create h s (some store) box).m_layer
          = h.GetLayerSelection d.m_SelLayerBox) := by
  refine ⟨_, destroy_config h d cfg hcfg, ?_⟩
  have hx : (enteredOffsetMM d).x =
      (if d.m_originImportUnits ≠ 0 then d.m_DxfPcbXCoord * 25.4 else d.m_DxfPcbXCoord) := by
    unfold enteredOffsetMM
    by_cases h0 : d.m_originImportUnits = 0 <;> simp [h0]
  have hy : (enteredOffsetMM d).y =
      (if d.m_originImportUnits ≠ 0 then d.m_DxfPcbYCoord * 25.4 else d.m_DxfPcbYCoord) := by
    unfold enteredOffsetMM
    by_cases h0 : d.m_originImportUnits = 0 <;> simp [h0]
  rw [hx, hy]
  generalize (if d.m_originImportUnits ≠ 0 then d.m_DxfPcbXCoord * 25.4 else d.m_DxfPcbXCoord)
    = X
  generalize (if d.m_originImportUnits ≠ 0 then d.m_DxfPcbYCoord * 25.4 else d.m_DxfPcbYCoord)
    = Y
  obtain ⟨k1, k2, k3, k4, k5, k6, k7, _⟩ :=
    writtenStore_lookup cfg (h.GetLayerSelection d.m_SelLayerBox) d.m_placementInteractive
      d.m_filename d.m_originImportUnits X Y d.m_default_lineWidth
      (doubleToInt (getPCBdefaultLineWidthMM d))
  obtain ⟨l1, l2, l3, l4, l5, l6, _⟩ := create_loaded h s
    (writtenStore cfg (h.GetLayerSelection d.m_SelLayerBox) d.m_placementInteractive
        d.m_filename d.m_originImportUnits X Y d.m_default_lineWidth
        (doubleToInt (getPCBdefaultLineWidthMM d))) box
  refine ⟨k1, k2, k3, k4, k5, k6, k7, ?_, ?_, ?_, ?_, ?_, ?_⟩
  · rw [l2]; simp only [wxConfigBase.ReadBool, k2]
  · rw [l3]; simp only [wxConfigBase.ReadString, k3]
  · rw [l5]; simp only [wxConfigBase.ReadLong, k4]
  · rw [l6]; simp only [wxConfigBase.ReadDouble, k5, k6]
  · rw [l4]; simp only [wxConfigBase.ReadDouble, k7]
  · intro hsel
    rw [l1]; simp only [wxConfigBase.ReadLong, k1]
    rw [if_neg (not_lt.mpr hsel)]

/-- Evaluation of C9 on `sampleDialog`: the position (1, 2) in inches is stored and loaded as
(25.4, 50.8) mm, and the selected layer 41 is loaded. -/
theorem destroy_create_round_trip_witness :
    sampleDialog.m_config = some [] ∧
    ∃ store, (DIALOG_IMPORT_GFX.destroy sampleHost sampleDialog).m_config = some store ∧
      store.lookup IMPORT_GFX_POSITION_X_KEY = some (wxConfigValue.dbl 25.4) ∧
      (DIALOG_IMPORT_GFX.create sampleHost (SESSION.fresh 40) (some store) (-1)).m_importOrigin
        = ⟨25.4, 50.8⟩ ∧
      (DIALOG_IMPORT_GFX.create sampleHost (SESSION.fresh 40) (some store) (-1)).m_layer = 41 := by
  obtain ⟨store, hs, _, _, _, _, hx, _, _, _, _, _, ho, _, hl⟩ :=
    destroy_create_round_trip sampleHost sampleDialog [] rfl (SESSION.fresh 40) (-1)
  refine ⟨rfl, store, hs, ?_, ?_, hl (by decide)⟩
  · rw [hx]; norm_num [sampleDialog]
  · rw [ho]; norm_num [sampleDialog]

/-! ## An empty result, a refused dialog, a null footprint -/

/-- C11: when the dialog is not accepted, or is accepted with an empty list of imported
items, `InvokeDialogImportGfxBoard` and `InvokeDialogImportGfxModule` return false and make no
call that adds to the board or footprint, saves in the undo list, calls `OnModify` or touches
the block move (their only call is the message box of the empty list); the same holds for
`InvokeDialogImportGfxModule` with a null footprint, whatever the dialog would give. -/
theorem Invoke_aborts_without_change (h : COLLABORATORS Box) (aModule : Option Nat)
    (dlg other : MODAL_OUTCOME)
    (habort : dlg.ShowModal ≠ wxID_OK ∨ dlg.GetImportedItems = []) :
    ((InvokeDialogImportGfxBoard h dlg).ret = false ∧
      (∀ c ∈ (InvokeDialogImportGfxBoard h dlg).calls, c.changesDocument = false) ∧
      (InvokeDialogImportGfxBoard h dlg).picklist = [] ∧
      (InvokeDialogImportGfxBoard h dlg).calls =
        (if dlg.ShowModal ≠ wxID_OK then []
         else [Call.wxMessageBox "No graphic items found in file to import" none])) ∧
    ((InvokeDialogImportGfxModule h aModule dlg).ret = false ∧
      (∀ c ∈ (InvokeDialogImportGfxModule h aModule dlg).calls, c.changesDocument = false) ∧
      (InvokeDialogImportGfxModule h aModule dlg).picklist = [] ∧
      (InvokeDialogImportGfxModule h aModule dlg).calls =
        (if aModule = none ∨ dlg.ShowModal ≠ wxID_OK then []
         else [Call.wxMessageBox "No graphic items found in file to import" none])) ∧
    ((InvokeDialogImportGfxModule h none other).ret = false ∧
      (InvokeDialogImportGfxModule h none other).calls = [] ∧
      (InvokeDialogImportGfxModule h none other).picklist = []) := by
  refine ⟨?_, ?_, rfl, rfl, rfl⟩
  · by_cases hok : dlg.ShowModal = wxID_OK
    · have hl : dlg.GetImportedItems = [] := habort.resolve_left (fun hne => hne hok)
      simp [InvokeDialogImportGfxBoard, hok, hl, Call.changesDocument]
    · simp [InvokeDialogImportGfxBoard, hok]
  · cases aModule with
    | none => simp [InvokeDialogImportGfxModule]
    | some m =>
      by_cases hok : dlg.ShowModal = wxID_OK
      · have hl : dlg.GetImportedItems = [] := habort.resolve_left (fun hne => hne hok)
        simp [InvokeDialogImportGfxModule, hok, hl, Call.changesDocument]
      · simp [InvokeDialogImportGfxModule, hok]

/-- Evaluation of C11 on an accepted dialog with no item, and on a cancelled dialog that
holds items. -/
theorem Invoke_aborts_without_change_witness :
    (({ sampleOutcome with GetImportedItems := [] } : MODAL_OUTCOME).ShowModal ≠ wxID_OK ∨
      ({ sampleOutcome with GetImportedItems := [] } : MODAL_OUTCOME).GetImportedItems = []) ∧
    (InvokeDialogImportGfxBoard sampleHost { sampleOutcome with GetImportedItems := [] }).ret
      = false ∧
    (InvokeDialogImportGfxModule sampleHost (some 1)
      { sampleOutcome with GetImportedItems := [] }).calls
      = [Call.wxMessageBox "No graphic items found in file to import" none] ∧
    (InvokeDialogImportGfxBoard sampleHost { sampleOutcome with ShowModal := 5101 }).calls
      = [] :=
  ⟨Or.inr rfl,
   (Invoke_aborts_without_change sampleHost (some 1)
      { sampleOutcome with GetImportedItems := [] } sampleOutcome (Or.inr rfl)).1.1,
   (Invoke_aborts_without_change sampleHost (some 1)
      { sampleOutcome with GetImportedItems := [] } sampleOutcome (Or.inr rfl)).2.1.2.2.2,
   (Invoke_aborts_without_change sampleHost (some 1)
      { sampleOutcome with ShowModal := 5101 } sampleOutcome (Or.inl (by decide))).1.2.2.2⟩

/-! ## Warnings of the importer -/

/-- The whole trace of `onOKClick` when a plugin is found: the calls up to `Import`, then
`GetMessages`, the warnings box when the messages are not empty, and `event.Skip()`. -/
theorem onOKClick_trace_with_plugin (h : COLLABORATORS Box) (d : DIALOG_IMPORT_GFX Box)
    (plugin : GRAPHICS_IMPORT_PLUGIN)
    (hf : d.m_textCtrlFileName ≠ "")
    (hl : 0 ≤ h.GetLayerSelection d.m_SelLayerBox)
    (hp : h.GetPluginByExt (h.GetExt d.m_textCtrlFileName) = some plugin) :
    (onOKClick h d).2 =
      callsUpToImport h d plugin ++ Call.GetMessages ::
        ((if h.GetMessages (callsUpToImport h d plugin) ≠ "" then
            [Call.wxMessageBox (h.GetMessages (callsUpToImport h d plugin))
              (some "Not Handled Items")]
          else []) ++ [Call.Skip]) := by
  have hl2 : ¬ h.GetLayerSelection d.m_SelLayerBox < 0 := not_lt.mpr hl
  unfold callsUpToImport
  cases hL : h.Load (callsBeforeLoad h d plugin) d.m_textCtrlFileName
  · simp only [callsBeforeLoad, enteredOffsetMM, enteredLineWidthMM] at hL
    simp only [onOKClick, hf, hl2, hp, updatePcbImportOffsets_mm, getPCBdefaultLineWidthMM,
      callsBeforeLoad, enteredOffsetMM, enteredLineWidthMM, VECTOR2D.mul, hL, if_false,
      List.singleton_append, List.cons_append, List.nil_append, Bool.false_eq_true]
    split_ifs <;> rfl
  · simp only [callsBeforeLoad, enteredOffsetMM, enteredLineWidthMM] at hL
    simp only [onOKClick, hf, hl2, hp, updatePcbImportOffsets_mm, getPCBdefaultLineWidthMM,
      callsBeforeLoad, enteredOffsetMM, enteredLineWidthMM, VECTOR2D.mul, hL, if_false,
      List.singleton_append, List.cons_append, List.nil_append, if_true]
    split_ifs <;> rfl

theorem warningBoxes_append (a b : List Call) :
    warningBoxes (a ++ b) = warningBoxes a ++ warningBoxes b :=
  List.filterMap_append _ _ _

/-- No warnings box is shown among the calls up to `Import`. -/
theorem warningBoxes_callsUpToImport (h : COLLABORATORS Box) (d : DIALOG_IMPORT_GFX Box)
    (plugin : GRAPHICS_IMPORT_PLUGIN) : warningBoxes (callsUpToImport h d plugin) = [] := by
  unfold callsUpToImport callsBeforeLoad
  cases h.Load _ d.m_textCtrlFileName <;> rfl

/-- C12, the claim as stated, fails: with the collaborators `sampleHost` the file "logo.svg"
has a plugin but does not load, `Import` is not called, the importer has the message
"no file", and the warnings box is shown all the same. -/
theorem onOKClick_warning_after_failed_load_counterexample :
    sampleHost.GetPluginByExt (sampleHost.GetExt "logo.svg")
      = some ⟨"Scalable Vector Graphics", "*.svg"⟩ ∧
    sampleHost.Load (callsBeforeLoad sampleHost { sampleDialog with m_textCtrlFileName := "logo.svg" }
      ⟨"Scalable Vector Graphics", "*.svg"⟩) "logo.svg" = false ∧
    (∀ scale, Call.Import scale ∉
      (onOKClick sampleHost { sampleDialog with m_textCtrlFileName := "logo.svg" }).2) ∧
    warningBoxes (onOKClick sampleHost { sampleDialog with m_textCtrlFileName := "logo.svg" }).2
      = ["no file"] := by
  refine ⟨by decide, by decide, ?_, ?_⟩
  · intro scale hmem
    rw [onOKClick_trace_with_plugin sampleHost _ ⟨"Scalable Vector Graphics", "*.svg"⟩
      (by decide) (by decide) (by decide)] at hmem
    simp [callsUpToImport, callsBeforeLoad, sampleHost, sampleDialog] at hmem
  · rw [onOKClick_trace_with_plugin sampleHost _ ⟨"Scalable Vector Graphics", "*.svg"⟩
      (by decide) (by decide) (by decide)]
    simp [callsUpToImport, callsBeforeLoad, sampleHost, sampleDialog, warningBoxes]

/-- C12, amended: when `onOKClick` finds a plugin, the warnings box is shown once if the
message string of the importer is not empty and not at all if it is empty; it comes after
`Load`, after `Import` when `Load` returned true (`Import` is called exactly then), and after
`GetMessages`, and it is shown also when `Load` returned false; `event.Skip()` is called,
once and last, whether or not there are warnings and whether or not `Load` returned true. -/
theorem onOKClick_warnings_are_not_failures (h : COLLABORATORS Box) (d : DIALOG_IMPORT_GFX Box)
    (plugin : GRAPHICS_IMPORT_PLUGIN)
    (hf : d.m_textCtrlFileName ≠ "")
    (hl : 0 ≤ h.GetLayerSelection d.m_SelLayerBox)
    (hp : h.GetPluginByExt (h.GetExt d.m_textCtrlFileName) = some plugin) :
    warningBoxes (onOKClick h d).2 =
      (if h.GetMessages (callsUpToImport h d plugin) ≠ ""
       then [h.GetMessages (callsUpToImport h d plugin)] else []) ∧
    (onOKClick h d).2 =
      callsUpToImport h d plugin ++ Call.GetMessages ::
        ((if h.GetMessages (callsUpToImport h d plugin) ≠ "" then
            [Call.wxMessageBox (h.GetMessages (callsUpToImport h d plugin))
              (some "Not Handled Items")]
          else []) ++ [Call.Skip]) ∧
    Call.Load d.m_textCtrlFileName ∈ callsUpToImport h d plugin ∧
    (Call.Import d.m_textCtrlImportScale ∈ callsUpToImport h d plugin ↔
      h.Load (callsBeforeLoad h d plugin) d.m_textCtrlFileName = true) ∧
    (onOKClick h d).2.count Call.Skip = 1 ∧
    (onOKClick h d).2.getLast? = some Call.Skip := by
  have key := onOKClick_trace_with_plugin h d plugin hf hl hp
  have hup := warningBoxes_callsUpToImport h d plugin
  have hskip : (callsUpToImport h d plugin).count Call.Skip = 0 := by
    unfold callsUpToImport callsBeforeLoad
    cases h.Load _ d.m_textCtrlFileName <;> simp
  refine ⟨?_, key, ?_, ?_, ?_, ?_⟩
  · rw [key, warningBoxes_append, hup, List.nil_append]
    by_cases hm : h.GetMessages (callsUpToImport h d plugin) = ""
    · simp only [hm, ne_eq, not_true_eq_false, if_false, List.nil_append]; rfl
    · simp only [ne_eq, hm, not_false_eq_true, if_true]; rfl
  · simp [callsUpToImport]
  · unfold callsUpToImport
    cases hL : h.Load (callsBeforeLoad h d plugin) d.m_textCtrlFileName <;>
      simp [callsBeforeLoad]
  · rw [key, List.count_append, hskip]
    by_cases hm : h.GetMessages (callsUpToImport h d plugin) = "" <;> simp [hm]
  · rw [key]
    by_cases hm : h.GetMessages (callsUpToImport h d plugin) = "" <;> simp [hm]

/-- Evaluation of the amended C12 on `sampleDialog`, whose file loads without a message, and
on the file "logo.svg", which does not load and leaves the message "no file". -/
theorem onOKClick_warnings_are_not_failures_witness :
    sampleDialog.m_textCtrlFileName ≠ "" ∧
    0 ≤ sampleHost.GetLayerSelection sampleDialog.m_SelLayerBox ∧
    sampleHost.GetPluginByExt (sampleHost.GetExt sampleDialog.m_textCtrlFileName)
      = some ⟨"AutoCAD DXF", "*.dxf"⟩ ∧
    (onOKClick sampleHost sampleDialog).2.count Call.Skip = 1 ∧
    (onOKClick sampleHost { sampleDialog with m_textCtrlFileName := "logo.svg" }).2.getLast?
      = some Call.Skip :=
  ⟨by decide, by decide, by decide,
   (onOKClick_warnings_are_not_failures sampleHost sampleDialog ⟨"AutoCAD DXF", "*.dxf"⟩
      (by decide) (by decide) (by decide)).2.2.2.2.1,
   (onOKClick_warnings_are_not_failures sampleHost
      { sampleDialog with m_textCtrlFileName := "logo.svg" }
      ⟨"Scalable Vector Graphics", "*.svg"⟩ (by decide) (by decide) (by decide)).2.2.2.2.2⟩

/-! ## The block move under interactive placement -/

theorem blockPushes_append (a b : List Call) :
    blockPushes (a ++ b) = blockPushes a ++ blockPushes b :=
  List.filterMap_append _ _ _

theorem flaggedItems_append (a b : List Call) :
    flaggedItems (a ++ b) = flaggedItems a ++ flaggedItems b :=
  List.filterMap_append _ _ _

theorem blockOrigins_append (a b : List Call) :
    blockOrigins (a ++ b) = blockOrigins a ++ blockOrigins b :=
  List.filterMap_append _ _ _

theorem blockSizes_append (a b : List Call) :
    blockSizes (a ++ b) = blockSizes a ++ blockSizes b :=
  List.filterMap_append _ _ _

/-- One turn of the loop of `InvokeDialogImportGfxBoard` under interactive placement. -/
theorem boardLoopBody_interactive (h : COLLABORATORS Box) (st : LOCALS) (item : BOARD_ITEM) :
    (boardLoopBody h true st item).calls =
      st.calls ++ [Call.SetFlags item .IS_MOVED, Call.BOARD_Add item,
        Call.blockitemsList_PushItem ⟨some item, st.item_picker.status⟩] ∧
    (boardLoopBody h true st item).item_picker.status = st.item_picker.status ∧
    (boardLoopBody h true st item).bbox =
      (if st.bboxInit then h.GetBoundingBox item
       else h.Merge st.bbox (h.GetBoundingBox item)) ∧
    (boardLoopBody h true st item).bboxInit = false := by
  cases hb : st.bboxInit <;> simp [boardLoopBody, blockPush, hb]

/-- One turn of the loop of `InvokeDialogImportGfxModule` under interactive placement. -/
theorem moduleLoopBody_interactive (h : COLLABORATORS Box) (st : LOCALS) (item : BOARD_ITEM) :
    (moduleLoopBody h true st item).calls =
      st.calls ++ [Call.MODULE_Add item, Call.SetFlags item .IS_MOVED,
        Call.blockitemsList_PushItem ⟨some item, st.item_picker.status⟩] ∧
    (moduleLoopBody h true st item).item_picker.status = st.item_picker.status ∧
    (moduleLoopBody h true st item).bbox =
      (if st.bboxInit then h.GetBoundingBox item
       else h.Merge st.bbox (h.GetBoundingBox item)) ∧
    (moduleLoopBody h true st item).bboxInit = false := by
  cases hb : st.bboxInit <;> simp [moduleLoopBody, blockPush, hb]

/-- What a loop whose turns push, flag and merge as above does to the block move: `body` is
either loop body under interactive placement. -/
theorem interactiveLoop_effect (h : COLLABORATORS Box) (body : LOCALS → BOARD_ITEM → LOCALS)
    (hbody : ∀ st item, ∃ add : Call,
      blockPushes [add] = [] ∧ flaggedItems [add] = [] ∧ blockOrigins [add] = [] ∧
      blockSizes [add] = [] ∧
      ((body st item).calls = st.calls ++ [Call.SetFlags item .IS_MOVED, add,
          Call.blockitemsList_PushItem ⟨some item, st.item_picker.status⟩] ∨
       (body st item).calls = st.calls ++ [add, Call.SetFlags item .IS_MOVED,
          Call.blockitemsList_PushItem ⟨some item, st.item_picker.status⟩]) ∧
      (body st item).item_picker.status = st.item_picker.status ∧
      (body st item).bbox =
        (if st.bboxInit then h.GetBoundingBox item
         else h.Merge st.bbox (h.GetBoundingBox item)) ∧
      (body st item).bboxInit = false)
    (list : List BOARD_ITEM) (st : LOCALS) :
    blockPushes (list.foldl body st).calls =
      blockPushes st.calls ++ list.map (fun item => ⟨some item, st.item_picker.status⟩) ∧
    flaggedItems (list.foldl body st).calls =
      flaggedItems st.calls ++ list.map (fun item => (item, STATUS_FLAGS.IS_MOVED)) ∧
    blockOrigins (list.foldl body st).calls = blockOrigins st.calls ∧
    blockSizes (list.foldl body st).calls = blockSizes st.calls ∧
    (st.bboxInit = false → (list.foldl body st).bbox =
      list.foldl (fun box item => h.Merge box (h.GetBoundingBox item)) st.bbox) ∧
    (∀ first later, list = first :: later → st.bboxInit = true →
      (list.foldl body st).bbox = mergedBox h first later) := by
  induction list generalizing st with
  | nil => simp
  | cons item rest ih =>
    obtain ⟨add, a1, a2, a3, a4, hcalls, hstatus, hbbox, hinit⟩ := hbody st item
    obtain ⟨i1, i2, i3, i4, i5, _⟩ := ih (body st item)
    simp only [List.foldl_cons, List.map_cons]
    rw [i1, i2, i3, i4, hstatus]
    have hP : blockPushes (body st item).calls =
        blockPushes st.calls ++ [⟨some item, st.item_picker.status⟩] := by
      rcases hcalls with hc | hc <;> rw [hc, blockPushes_append] <;> congr 1 <;>
        · show blockPushes ([_] ++ ([_] ++ [_])) = _
          rw [blockPushes_append, blockPushes_append, a1]; rfl
    have hF : flaggedItems (body st item).calls =
        flaggedItems st.calls ++ [(item, STATUS_FLAGS.IS_MOVED)] := by
      rcases hcalls with hc | hc <;> rw [hc, flaggedItems_append] <;> congr 1 <;>
        · show flaggedItems ([_] ++ ([_] ++ [_])) = _
          rw [flaggedItems_append, flaggedItems_append, a2]; rfl
    have hO : blockOrigins (body st item).calls = blockOrigins st.calls := by
      rcases hcalls with hc | hc <;> rw [hc, blockOrigins_append] <;>
        · show _ ++ blockOrigins ([_] ++ ([_] ++ [_])) = _
          rw [blockOrigins_append, blockOrigins_append, a3]; simp [blockOrigins]
    have hS : blockSizes (body st item).calls = blockSizes st.calls := by
      rcases hcalls with hc | hc <;> rw [hc, blockSizes_append] <;>
        · show _ ++ blockSizes ([_] ++ ([_] ++ [_])) = _
          rw [blockSizes_append, blockSizes_append, a4]; simp [blockSizes]
    rw [hP, hF, hO, hS]
    refine ⟨by simp, by simp, rfl, rfl, ?_, ?_⟩
    · intro hfalse
      rw [i5 hinit, hbbox, hfalse]
      rfl
    · intro first later hl htrue
      obtain ⟨rfl, rfl⟩ := List.cons.inj hl
      rw [i5 hinit, hbbox, htrue]
      rfl

/-- What a loop whose turns only add the item does to the block move: `body` is either loop
body under absolute placement. -/
theorem absoluteLoop_effect (body : LOCALS → BOARD_ITEM → LOCALS)
    (hbody : ∀ st item, ∃ add : Call,
      blockPushes [add] = [] ∧ flaggedItems [add] = [] ∧ blockOrigins [add] = [] ∧
      blockSizes [add] = [] ∧ (body st item).calls = st.calls ++ [add])
    (list : List BOARD_ITEM) (st : LOCALS) :
    blockPushes (list.foldl body st).calls = blockPushes st.calls ∧
    flaggedItems (list.foldl body st).calls = flaggedItems st.calls ∧
    blockOrigins (list.foldl body st).calls = blockOrigins st.calls ∧
    blockSizes (list.foldl body st).calls = blockSizes st.calls := by
  induction list generalizing st with
  | nil => simp
  | cons item rest ih =>
    obtain ⟨add, a1, a2, a3, a4, hcalls⟩ := hbody st item
    obtain ⟨i1, i2, i3, i4⟩ := ih (body st item)
    simp only [List.foldl_cons]
    rw [i1, i2, i3, i4, hcalls, blockPushes_append, flaggedItems_append, blockOrigins_append,
      blockSizes_append, a1, a2, a3, a4]
    simp

/-- Containment of rectangles is transitive. -/
theorem EDA_RECT.Contains.trans {a b c : EDA_RECT} (hab : a.Contains b) (hbc : b.Contains c) :
    a.Contains c := by
  unfold EDA_RECT.Contains at *
  omega

/-- When a merged rectangle contains both rectangles it was merged from, the rectangle
merged from a start and the boxes of a list contains the start and each of these boxes. -/
theorem foldl_Merge_contains (h : COLLABORATORS Box)
    (hmerge : ∀ a b, (h.Merge a b).Contains a ∧ (h.Merge a b).Contains b)
    (list : List BOARD_ITEM) (start : EDA_RECT) :
    (list.foldl (fun box item => h.Merge box (h.GetBoundingBox item)) start).Contains start ∧
    ∀ item ∈ list,
      (list.foldl (fun box item => h.Merge box (h.GetBoundingBox item)) start).Contains
        (h.GetBoundingBox item) := by
  induction list generalizing start with
  | nil =>
    refine ⟨?_, fun item hmem => by cases hmem⟩
    simp [EDA_RECT.Contains]
  | cons x rest ih =>
    obtain ⟨i1, i2⟩ := ih (h.Merge start (h.GetBoundingBox x))
    simp only [List.foldl_cons]
    refine ⟨i1.trans (hmerge _ _).1, ?_⟩
    intro item hmem
    rcases List.mem_cons.mp hmem with rfl | hrest
    · exact i1.trans (hmerge _ _).2
    · exact i2 item hrest

/-- C13: for an accepted dialog with the non-empty list `first :: later` and interactive
placement, `InvokeDialogImportGfxBoard` and `InvokeDialogImportGfxModule` push each item once
on the item list of the block selector, in list order, flag each item `IS_MOVED` once, and
give the block selector, once, the origin and the size of the bounding box of the first item
merged successively with that of every later item; this rectangle contains the bounding box
of every item as soon as a merged rectangle contains the two it is merged from. With absolute
placement no item is flagged or pushed and neither origin nor size is set. -/
theorem blockMove_anchor (h : COLLABORATORS Box) (aModule : Nat) (first : BOARD_ITEM)
    (later : List BOARD_ITEM) :
    (blockPushes (InvokeDialogImportGfxBoard h ⟨wxID_OK, first :: later, true⟩).calls =
        (first :: later).map (fun item => ⟨some item, .UR_NEW⟩) ∧
      flaggedItems (InvokeDialogImportGfxBoard h ⟨wxID_OK, first :: later, true⟩).calls =
        (first :: later).map (fun item => (item, STATUS_FLAGS.IS_MOVED)) ∧
      blockOrigins (InvokeDialogImportGfxBoard h ⟨wxID_OK, first :: later, true⟩).calls =
        [(mergedBox h first later).m_Pos] ∧
      blockSizes (InvokeDialogImportGfxBoard h ⟨wxID_OK, first :: later, true⟩).calls =
        [(mergedBox h first later).m_Size]) ∧
    (blockPushes
        (InvokeDialogImportGfxModule h (some aModule) ⟨wxID_OK, first :: later, true⟩).calls =
        (first :: later).map (fun item => ⟨some item, .UR_NEW⟩) ∧
      flaggedItems
        (InvokeDialogImportGfxModule h (some aModule) ⟨wxID_OK, first :: later, true⟩).calls =
        (first :: later).map (fun item => (item, STATUS_FLAGS.IS_MOVED)) ∧
      blockOrigins
        (InvokeDialogImportGfxModule h (some aModule) ⟨wxID_OK, first :: later, true⟩).calls =
        [(mergedBox h first later).m_Pos] ∧
      blockSizes
        (InvokeDialogImportGfxModule h (some aModule) ⟨wxID_OK, first :: later, true⟩).calls =
        [(mergedBox h first later).m_Size]) ∧
    ((∀ a b, (h.Merge a b).Contains a ∧ (h.Merge a b).Contains b) →
      ∀ item ∈ first :: later, (mergedBox h first later).Contains (h.GetBoundingBox item)) ∧
    (blockPushes (InvokeDialogImportGfxBoard h ⟨wxID_OK, first :: later, false⟩).calls = [] ∧
      flaggedItems (InvokeDialogImportGfxBoard h ⟨wxID_OK, first :: later, false⟩).calls = [] ∧
      blockOrigins (InvokeDialogImportGfxBoard h ⟨wxID_OK, first :: later, false⟩).calls = [] ∧
      blockSizes (InvokeDialogImportGfxBoard h ⟨wxID_OK, first :: later, false⟩).calls = []) ∧
    (blockPushes
        (InvokeDialogImportGfxModule h (some aModule) ⟨wxID_OK, first :: later, false⟩).calls
        = [] ∧
      flaggedItems
        (InvokeDialogImportGfxModule h (some aModule) ⟨wxID_OK, first :: later, false⟩).calls
        = [] ∧
      blockOrigins
        (InvokeDialogImportGfxModule h (some aModule) ⟨wxID_OK, first :: later, false⟩).calls
        = [] ∧
      blockSizes
        (InvokeDialogImportGfxModule h (some aModule) ⟨wxID_OK, first :: later, false⟩).calls
        = []) := by
  have hboard : ∀ st item, ∃ add : Call,
      blockPushes [add] = [] ∧ flaggedItems [add] = [] ∧ blockOrigins [add] = [] ∧
      blockSizes [add] = [] ∧
      ((boardLoopBody h true st item).calls = st.calls ++ [Call.SetFlags item .IS_MOVED, add,
          Call.blockitemsList_PushItem ⟨some item, st.item_picker.status⟩] ∨
       (boardLoopBody h true st item).calls = st.calls ++ [add, Call.SetFlags item .IS_MOVED,
          Call.blockitemsList_PushItem ⟨some item, st.item_picker.status⟩]) ∧
      (boardLoopBody h true st item).item_picker.status = st.item_picker.status ∧
      (boardLoopBody h true st item).bbox =
        (if st.bboxInit then h.GetBoundingBox item
         else h.Merge st.bbox (h.GetBoundingBox item)) ∧
      (boardLoopBody h true st item).bboxInit = false := fun st item =>
    ⟨Call.BOARD_Add item, rfl, rfl, rfl, rfl,
      Or.inl (boardLoopBody_interactive h st item).1, (boardLoopBody_interactive h st item).2⟩
  have hmodule : ∀ st item, ∃ add : Call,
      blockPushes [add] = [] ∧ flaggedItems [add] = [] ∧ blockOrigins [add] = [] ∧
      blockSizes [add] = [] ∧
      ((moduleLoopBody h true st item).calls = st.calls ++ [Call.SetFlags item .IS_MOVED, add,
          Call.blockitemsList_PushItem ⟨some item, st.item_picker.status⟩] ∨
       (moduleLoopBody h true st item).calls = st.calls ++ [add, Call.SetFlags item .IS_MOVED,
          Call.blockitemsList_PushItem ⟨some item, st.item_picker.status⟩]) ∧
      (moduleLoopBody h true st item).item_picker.status = st.item_picker.status ∧
      (moduleLoopBody h true st item).bbox =
        (if st.bboxInit then h.GetBoundingBox item
         else h.Merge st.bbox (h.GetBoundingBox item)) ∧
      (moduleLoopBody h true st item).bboxInit = false := fun st item =>
    ⟨Call.MODULE_Add item, rfl, rfl, rfl, rfl,
      Or.inr (moduleLoopBody_interactive h st item).1, (moduleLoopBody_interactive h st item).2⟩
  refine ⟨?_, ?_, ?_, ?_, ?_⟩
  · obtain ⟨e1, e2, e3, e4, _, e6⟩ := interactiveLoop_effect h (boardLoopBody h true) hboard
      (first :: later) (LOCALS.init [Call.HandleBlockBegin])
    have hcalls : (InvokeDialogImportGfxBoard h ⟨wxID_OK, first :: later, true⟩).calls =
        ((first :: later).foldl (boardLoopBody h true)
            (LOCALS.init [Call.HandleBlockBegin])).calls ++
          [Call.SaveCopyInUndoList ((first :: later).foldl (boardLoopBody h true)
              (LOCALS.init [Call.HandleBlockBegin])).picklist .UR_NEW,
           Call.OnModify,
           Call.SetOrigin (mergedBox h first later).m_Pos,
           Call.SetSize (mergedBox h first later).m_Size,
           Call.SetLastCursorPosition
             (h.GetNearestGridPosition (h.Centre (mergedBox h first later))),
           Call.HandleBlockEnd] := by
      rw [← e6 first later rfl rfl]
      simp [InvokeDialogImportGfxBoard, finishBlockMove, LOCALS.init]
    rw [hcalls, blockPushes_append, flaggedItems_append, blockOrigins_append,
      blockSizes_append, e1, e2, e3, e4]
    exact ⟨by simp [blockPushes, LOCALS.init], by simp [flaggedItems, LOCALS.init],
      by simp [blockOrigins, LOCALS.init], by simp [blockSizes, LOCALS.init]⟩
  · obtain ⟨e1, e2, e3, e4, _, e6⟩ := interactiveLoop_effect h (moduleLoopBody h true) hmodule
      (first :: later)
      (LOCALS.init [Call.SaveCopyInUndoList_item .UR_CHANGED, Call.HandleBlockBegin])
    have hcalls :
        (InvokeDialogImportGfxModule h (some aModule) ⟨wxID_OK, first :: later, true⟩).calls =
        ((first :: later).foldl (moduleLoopBody h true)
            (LOCALS.init [Call.SaveCopyInUndoList_item .UR_CHANGED,
              Call.HandleBlockBegin])).calls ++
          [Call.OnModify,
           Call.SetOrigin (mergedBox h first later).m_Pos,
           Call.SetSize (mergedBox h first later).m_Size,
           Call.SetLastCursorPosition
             (h.GetNearestGridPosition (h.Centre (mergedBox h first later))),
           Call.HandleBlockEnd] := by
      rw [← e6 first later rfl rfl]
      simp [InvokeDialogImportGfxModule, finishBlockMove, LOCALS.init]
    rw [hcalls, blockPushes_append, flaggedItems_append, blockOrigins_append,
      blockSizes_append, e1, e2, e3, e4]
    exact ⟨by simp [blockPushes, LOCALS.init], by simp [flaggedItems, LOCALS.init],
      by simp [blockOrigins, LOCALS.init], by simp [blockSizes, LOCALS.init]⟩
  · intro hmerge item hmem
    obtain ⟨c1, c2⟩ := foldl_Merge_contains h hmerge later (h.GetBoundingBox first)
    rcases List.mem_cons.mp hmem with rfl | hrest
    · exact c1
    · exact c2 item hrest
  · obtain ⟨e1, e2, e3, e4⟩ := absoluteLoop_effect (boardLoopBody h false)
      (fun st item => ⟨Call.BOARD_Add item, rfl, rfl, rfl, rfl, by simp [boardLoopBody]⟩)
      (first :: later) (LOCALS.init [])
    have hcalls : (InvokeDialogImportGfxBoard h ⟨wxID_OK, first :: later, false⟩).calls =
        ((first :: later).foldl (boardLoopBody h false) (LOCALS.init [])).calls ++
          [Call.SaveCopyInUndoList ((first :: later).foldl (boardLoopBody h false)
              (LOCALS.init [])).picklist .UR_NEW,
           Call.OnModify] := by
      simp [InvokeDialogImportGfxBoard, LOCALS.init]
    rw [hcalls, blockPushes_append, flaggedItems_append, blockOrigins_append,
      blockSizes_append, e1, e2, e3, e4]
    exact ⟨rfl, rfl, rfl, rfl⟩
  · obtain ⟨e1, e2, e3, e4⟩ := absoluteLoop_effect (moduleLoopBody h false)
      (fun st item => ⟨Call.MODULE_Add item, rfl, rfl, rfl, rfl, by simp [moduleLoopBody]⟩)
      (first :: later) (LOCALS.init [Call.SaveCopyInUndoList_item .UR_CHANGED])
    have hcalls :
        (InvokeDialogImportGfxModule h (some aModule) ⟨wxID_OK, first :: later, false⟩).calls =
        ((first :: later).foldl (moduleLoopBody h false)
            (LOCALS.init [Call.SaveCopyInUndoList_item .UR_CHANGED])).calls ++
          [Call.OnModify] := by
      simp [InvokeDialogImportGfxModule, LOCALS.init]
    rw [hcalls, blockPushes_append, flaggedItems_append, blockOrigins_append,
      blockSizes_append, e1, e2, e3, e4]
    exact ⟨rfl, rfl, rfl, rfl⟩

/-- The merge of `sampleHost` gives a rectangle that contains both rectangles merged. -/
theorem sampleHost_Merge_contains (a b : EDA_RECT) :
    (sampleHost.Merge a b).Contains a ∧ (sampleHost.Merge a b).Contains b := by
  simp only [sampleHost, EDA_RECT.Contains]
  omega

/-- Evaluation of C13 on the items 7, 3 and 9 with the collaborators `sampleHost`, whose
boxes are squares of side 10 at (item, item): the block selector is given the origin (3, 3)
and the size (16, 16), and that rectangle contains the three boxes. -/
theorem blockMove_anchor_witness :
    (∀ a b, (sampleHost.Merge a b).Contains a ∧ (sampleHost.Merge a b).Contains b) ∧
    blockOrigins (InvokeDialogImportGfxBoard sampleHost ⟨wxID_OK, [7, 3, 9], true⟩).calls
      = [⟨3, 3⟩] ∧
    blockSizes (InvokeDialogImportGfxBoard sampleHost ⟨wxID_OK, [7, 3, 9], true⟩).calls
      = [⟨16, 16⟩] ∧
    (∀ item ∈ [7, 3, 9],
      (mergedBox sampleHost 7 [3, 9]).Contains (sampleHost.GetBoundingBox item)) ∧
    blockPushes (InvokeDialogImportGfxModule sampleHost (some 1)
      ⟨wxID_OK, [7, 3, 9], false⟩).calls = [] :=
  ⟨sampleHost_Merge_contains,
   (blockMove_anchor sampleHost 1 7 [3, 9]).1.2.2.1,
   (blockMove_anchor sampleHost 1 7 [3, 9]).1.2.2.2,
   (blockMove_anchor sampleHost 1 7 [3, 9]).2.2.1 sampleHost_Merge_contains,
   (blockMove_anchor sampleHost 1 7 [3, 9]).2.2.2.2.1⟩

end ImportGfx

/-! # The hotkeys of the Gerber viewer: dispatch and the active layer -/

namespace GerbviewHotkeys

/-- The entry `HkMeasureTool` is the only entry of the table with the command
`HK_MEASURE_TOOL`, and no entry has the command `HK_NOT_FOUND`. -/
theorem gerbviewHotkeyList_commands (k : KEY_CODES) (hk : EDA_HOTKEY)
    (hmem : hk ∈ gerbviewHotkeyList k) :
    (hk.m_Idcommand = .HK_MEASURE_TOOL ↔ hk = HkMeasureTool k) ∧
    hk.m_Idcommand ≠ .HK_NOT_FOUND := by
  simp only [gerbviewHotkeyList, List.mem_cons, List.mem_singleton, List.not_mem_nil,
    or_false] at hmem
  rcases hmem with h | h | h | h | h | h | h | h | h | h | h | h | h | h | h | h | h | h | h |
    h | h <;> subst h <;>
    simp [HkHelp, HkZoomIn, HkZoomOut, HkZoomRedraw, HkZoomCenter, HkZoomAuto, HkZoomSelection,
      HkSwitchUnits, HkResetLocalCoord, HkLinesDisplayMode, HkFlashedDisplayMode,
      HkPolygonDisplayMode, HkDCodesDisplayMode, HkNegativeObjDisplayMode,
      HkSwitchHighContrastMode, HkSwitch2NextCopperLayer, HkSwitch2PreviousCopperLayer,
      HkCanvasDefault, HkCanvasOpenGL, HkCanvasCairo, HkMeasureTool]

/-- The switch returns true on every command of this file but `HK_NOT_FOUND` and
`HK_MEASURE_TOOL`. -/
theorem dispatch_ret (e : GERBVIEW_ENV) (f : GERBVIEW_FRAME) (c : hotkey_id_commnand) :
    (dispatch e f c).ret = decide (c ≠ .HK_NOT_FOUND ∧ c ≠ .HK_MEASURE_TOOL) := by
  cases c <;> simp [dispatch] <;> split <;> rfl

/-- C14, the claim as stated, fails: in the environment `sampleEnv` the key code of
'M' with shift and control resolves to the entry `HkMeasureTool` of the table, whose command
`HK_MEASURE_TOOL` has no case in the switch, and `OnHotKey` returns false. -/
theorem OnHotKey_measure_tool_counterexample :
    HkMeasureTool sampleEnv.keys ∈ gerbviewHotkeyList sampleEnv.keys ∧
    sampleEnv.GetDescriptorFromHotkey (upperCaseCode (77 + 1879048192))
      (gerbviewHotkeyList sampleEnv.keys) = some (HkMeasureTool sampleEnv.keys) ∧
    (OnHotKey sampleEnv sampleFrame (77 + 1879048192)).ret = false := by
  decide

/-- C14, amended: a key code in 'a'..'z' is first mapped to upper case; when the key code
then resolves to an entry of `gerbviewHotkeyList`, `OnHotKey` returns true if the entry is not
`HkMeasureTool` (every other entry has its command among the cases of the switch) and false
if it is `HkMeasureTool` (the command `HK_MEASURE_TOOL`, of the modern toolset only, has no
case); `OnHotKey` returns false, with the frame unchanged and no call made, for every key
code that resolves to no entry. -/
theorem OnHotKey_dispatches_table (e : GERBVIEW_ENV) (f : GERBVIEW_FRAME) (key : Int)
    (hk : EDA_HOTKEY)
    (hres : e.GetDescriptorFromHotkey (upperCaseCode key) (gerbviewHotkeyList e.keys) = some hk)
    (hmem : hk ∈ gerbviewHotkeyList e.keys) :
    upperCaseCode key = (if 97 ≤ key ∧ key ≤ 122 then key - 32 else key) ∧
    ((OnHotKey e f key).ret = true ↔ hk ≠ HkMeasureTool e.keys) ∧
    ((OnHotKey e f key).ret = false ↔ hk = HkMeasureTool e.keys) ∧
    (∀ other : Int,
      e.GetDescriptorFromHotkey (upperCaseCode other) (gerbviewHotkeyList e.keys) = none →
      (OnHotKey e f other).ret = false ∧ (OnHotKey e f other).frame = f ∧
      (OnHotKey e f other).calls = []) := by
  obtain ⟨hm, hnf⟩ := gerbviewHotkeyList_commands e.keys hk hmem
  have hret : (OnHotKey e f key).ret =
      decide (hk.m_Idcommand ≠ .HK_NOT_FOUND ∧ hk.m_Idcommand ≠ .HK_MEASURE_TOOL) := by
    simp only [OnHotKey, hres]
    exact dispatch_ret e f hk.m_Idcommand
  refine ⟨rfl, ?_, ?_, ?_⟩
  · rw [hret, decide_eq_true_eq]
    exact ⟨fun h heq => h.2 (hm.mpr heq), fun h => ⟨hnf, fun hc => h (hm.mp hc)⟩⟩
  · rw [hret, decide_eq_false_iff_not]
    constructor
    · intro h
      by_contra hne
      exact h ⟨hnf, fun hc => hne (hm.mp hc)⟩
    · intro h hc
      exact hc.2 (hm.mpr h)
  · intro other hnone
    simp [OnHotKey, hnone]

/-- Evaluation of the amended C14 in `sampleEnv`: the key 'u' resolves to `HkSwitchUnits`
and is handled, the key 'q' resolves to no entry and is not. -/
theorem OnHotKey_dispatches_table_witness :
    sampleEnv.GetDescriptorFromHotkey (upperCaseCode 117) (gerbviewHotkeyList sampleEnv.keys)
      = some (HkSwitchUnits sampleEnv.keys) ∧
    HkSwitchUnits sampleEnv.keys ∈ gerbviewHotkeyList sampleEnv.keys ∧
    upperCaseCode 117 = 85 ∧
    ((OnHotKey sampleEnv sampleFrame 117).ret = true
      ↔ HkSwitchUnits sampleEnv.keys ≠ HkMeasureTool sampleEnv.keys) ∧
    (OnHotKey sampleEnv sampleFrame 113).ret = false :=
  ⟨by decide, by decide,
   (OnHotKey_dispatches_table sampleEnv sampleFrame 117 (HkSwitchUnits sampleEnv.keys)
      (by decide) (by decide)).1,
   (OnHotKey_dispatches_table sampleEnv sampleFrame 117 (HkSwitchUnits sampleEnv.keys)
      (by decide) (by decide)).2.1,
   ((OnHotKey_dispatches_table sampleEnv sampleFrame 117 (HkSwitchUnits sampleEnv.keys)
      (by decide) (by decide)).2.2.2 113 (by decide)).1⟩

/-- What the switch does to the active layer: the command "switch to next layer" sets it to
`L + 1` below the last layer, "switch to previous layer" to `L - 1` above layer 0, each with
one call of `SetActiveLayer`; they leave it alone at the last layer and at layer 0, and no
other command sets it. -/
theorem dispatch_activeLayer (e : GERBVIEW_ENV) (f : GERBVIEW_FRAME) (c : hotkey_id_commnand) :
    (c = .HK_SWITCH_LAYER_TO_NEXT →
      (dispatch e f c).frame.activeLayer =
        (if f.activeLayer < e.GERBER_DRAWLAYERS_COUNT - 1 then f.activeLayer + 1
         else f.activeLayer) ∧
      activeLayerSets (dispatch e f c).calls =
        (if f.activeLayer < e.GERBER_DRAWLAYERS_COUNT - 1 then [f.activeLayer + 1] else [])) ∧
    (c = .HK_SWITCH_LAYER_TO_PREVIOUS →
      (dispatch e f c).frame.activeLayer =
        (if f.activeLayer > 0 then f.activeLayer - 1 else f.activeLayer) ∧
      activeLayerSets (dispatch e f c).calls =
        (if f.activeLayer > 0 then [f.activeLayer - 1] else [])) ∧
    (c ≠ .HK_SWITCH_LAYER_TO_NEXT → c ≠ .HK_SWITCH_LAYER_TO_PREVIOUS →
      (dispatch e f c).frame.activeLayer = f.activeLayer ∧
      activeLayerSets (dispatch e f c).calls = []) := by
  refine ⟨?_, ?_, ?_⟩
  · rintro rfl
    by_cases hlt : f.activeLayer < e.GERBER_DRAWLAYERS_COUNT - 1 <;>
      simp [dispatch, hlt, activeLayerSets]
  · rintro rfl
    by_cases hgt : f.activeLayer > 0 <;> simp [dispatch, hgt, activeLayerSets]
  · intro hn hp
    cases c <;> first | exact absurd rfl hn | exact absurd rfl hp | exact ⟨rfl, rfl⟩

/-- C15: when the active layer `L` is in `0 .. GERBER_DRAWLAYERS_COUNT - 1` before
`OnHotKey`, it is so afterwards, for every key code; a key that resolves to the command
"switch to next layer" sets it to `L + 1` when `L < GERBER_DRAWLAYERS_COUNT - 1` and leaves it
at the last layer, one that resolves to "switch to previous layer" sets it to `L - 1` when
`L > 0` and leaves it at layer 0, and a key that resolves to another command, or to no entry,
leaves it as it is and makes no call of `SetActiveLayer`. -/
theorem OnHotKey_activeLayer_in_range (e : GERBVIEW_ENV) (f : GERBVIEW_FRAME) (key : Int)
    (hlo : 0 ≤ f.activeLayer) (hhi : f.activeLayer ≤ e.GERBER_DRAWLAYERS_COUNT - 1) :
    (0 ≤ (OnHotKey e f key).frame.activeLayer ∧
      (OnHotKey e f key).frame.activeLayer ≤ e.GERBER_DRAWLAYERS_COUNT - 1) ∧
    (∀ hk, e.GetDescriptorFromHotkey (upperCaseCode key) (gerbviewHotkeyList e.keys) = some hk →
      (hk.m_Idcommand = .HK_SWITCH_LAYER_TO_NEXT →
        (OnHotKey e f key).frame.activeLayer =
          (if f.activeLayer < e.GERBER_DRAWLAYERS_COUNT - 1 then f.activeLayer + 1
           else f.activeLayer) ∧
        activeLayerSets (OnHotKey e f key).calls =
          (if f.activeLayer < e.GERBER_DRAWLAYERS_COUNT - 1 then [f.activeLayer + 1] else [])) ∧
      (hk.m_Idcommand = .HK_SWITCH_LAYER_TO_PREVIOUS →
        (OnHotKey e f key).frame.activeLayer =
          (if f.activeLayer > 0 then f.activeLayer - 1 else f.activeLayer) ∧
        activeLayerSets (OnHotKey e f key).calls =
          (if f.activeLayer > 0 then [f.activeLayer - 1] else [])) ∧
      (hk.m_Idcommand ≠ .HK_SWITCH_LAYER_TO_NEXT →
        hk.m_Idcommand ≠ .HK_SWITCH_LAYER_TO_PREVIOUS →
        (OnHotKey e f key).frame.activeLayer = f.activeLayer ∧
        activeLayerSets (OnHotKey e f key).calls = [])) ∧
    (e.GetDescriptorFromHotkey (upperCaseCode key) (gerbviewHotkeyList e.keys) = none →
      (OnHotKey e f key).frame.activeLayer = f.activeLayer ∧
      activeLayerSets (OnHotKey e f key).calls = []) := by
  have hsome : ∀ hk,
      e.GetDescriptorFromHotkey (upperCaseCode key) (gerbviewHotkeyList e.keys) = some hk →
      OnHotKey e f key = dispatch e f hk.m_Idcommand := by
    intro hk hres
    simp only [OnHotKey, hres]
  have hnone : e.GetDescriptorFromHotkey (upperCaseCode key) (gerbviewHotkeyList e.keys) = none →
      (OnHotKey e f key).frame.activeLayer = f.activeLayer ∧
      activeLayerSets (OnHotKey e f key).calls = [] := by
    intro hres
    have hval : OnHotKey e f key = ⟨false, f, []⟩ := by simp only [OnHotKey, hres]
    rw [hval]
    exact ⟨rfl, rfl⟩
  refine ⟨?_, ?_, hnone⟩
  · cases hres : e.GetDescriptorFromHotkey (upperCaseCode key) (gerbviewHotkeyList e.keys) with
    | none => rw [(hnone hres).1]; exact ⟨hlo, hhi⟩
    | some hk =>
      rw [hsome hk hres]
      obtain ⟨d1, d2, d3⟩ := dispatch_activeLayer e f hk.m_Idcommand
      by_cases hn : hk.m_Idcommand = .HK_SWITCH_LAYER_TO_NEXT
      · rw [(d1 hn).1]
        split <;> omega
      · by_cases hp : hk.m_Idcommand = .HK_SWITCH_LAYER_TO_PREVIOUS
        · rw [(d2 hp).1]
          split <;> omega
        · rw [(d3 hn hp).1]; exact ⟨hlo, hhi⟩
  · intro hk hres
    rw [hsome hk hres]
    exact dispatch_activeLayer e f hk.m_Idcommand

/-- Evaluation of C15 in `sampleEnv` on `sampleFrame`, whose active layer 31 is the last of
32: '+' leaves it at 31 without a call of `SetActiveLayer`, '-' sets it to 30. -/
theorem OnHotKey_activeLayer_in_range_witness :
    0 ≤ sampleFrame.activeLayer ∧
    sampleFrame.activeLayer ≤ sampleEnv.GERBER_DRAWLAYERS_COUNT - 1 ∧
    (0 ≤ (OnHotKey sampleEnv sampleFrame 43).frame.activeLayer ∧
      (OnHotKey sampleEnv sampleFrame 43).frame.activeLayer
        ≤ sampleEnv.GERBER_DRAWLAYERS_COUNT - 1) ∧
    (OnHotKey sampleEnv sampleFrame 43).frame.activeLayer = 31 ∧
    (OnHotKey sampleEnv sampleFrame 45).frame.activeLayer = 30 ∧
    activeLayerSets (OnHotKey sampleEnv sampleFrame 45).calls = [30] :=
  ⟨by decide, by decide,
   (OnHotKey_activeLayer_in_range sampleEnv sampleFrame 43 (by decide) (by decide)).1,
   ((OnHotKey_activeLayer_in_range sampleEnv sampleFrame 43 (by decide) (by decide)).2.1
      (HkSwitch2NextCopperLayer sampleEnv.keys) (by decide)).1 rfl |>.1,
   ((OnHotKey_activeLayer_in_range sampleEnv sampleFrame 45 (by decide) (by decide)).2.1
      (HkSwitch2PreviousCopperLayer sampleEnv.keys) (by decide)).2.1 rfl |>.1,
   ((OnHotKey_activeLayer_in_range sampleEnv sampleFrame 45 (by decide) (by decide)).2.1
      (HkSwitch2PreviousCopperLayer sampleEnv.keys) (by decide)).2.1 rfl |>.2⟩

end GerbviewHotkeys
